import Mathlib

/-!
Verification development for the PyKED conversion and validation modules
(`pyked/converters.py` and `pyked/validation.py`).

The Python source is shallowly embedded: dictionaries become structures with
optional fields, Python exceptions become `Except` errors (or `Option` with
`none` for uncaught crashes such as `IndexError`), floats become rationals,
and pint quantities become pairs of a magnitude and a unit string interpreted
through a fragment of the unit registry.  String helpers are implemented over
`List Char` so that every definition evaluates by kernel reduction.
-/

set_option maxRecDepth 4000

deriving instance DecidableEq for Except

namespace PyKED

/-! ## String helpers (ASCII models of the Python string operations used) -/

/-- Model of Python `str.lower()` (ASCII range, which covers every string
compared by the source). -/
def lowerStr (s : String) : String := ⟨s.data.map Char.toLower⟩

/-- Model of Python `str.upper()` (ASCII range). -/
def upperStr (s : String) : String := ⟨s.data.map Char.toUpper⟩

/-- Split a character list at every separator character, keeping empty pieces,
like `re.split` with a single-character class (before collapsing). -/
def splitChars (p : Char → Bool) : List Char → List (List Char)
  | [] => [[]]
  | c :: cs =>
    if p c then [] :: splitChars p cs
    else
      match splitChars p cs with
      | t :: ts => (c :: t) :: ts
      | [] => [[c]]

/-- Separators of `re.split("[, \\-.]+", ...)` in `compare_name`. -/
def isNameSep (c : Char) : Bool := c = ',' || c = ' ' || c = '-' || c = '.'

/-- Model of `list(filter(None, re.split("[, \\-.]+", s)))`: the non-empty
maximal runs between separator characters. -/
def tokenize (s : String) : List String :=
  ((splitChars isNameSep s.data).filter (· ≠ [])).map String.mk

/-- Model of Python `c in s` for a single character. -/
def containsChar (s : String) (c : Char) : Bool := s.data.contains c

/-- Model of `' '.join(parts)`. -/
def joinSpace (parts : List String) : String :=
  ⟨List.intercalate [' '] (parts.map String.data)⟩

/-- Model of Python `str.strip()`. -/
def stripWs (s : String) : String :=
  ⟨((s.data.dropWhile Char.isWhitespace).reverse.dropWhile Char.isWhitespace).reverse⟩

/-- Model of Python `str.rstrip(c)` for one character. -/
def rstripChar (s : String) (c : Char) : String :=
  ⟨(s.data.reverse.dropWhile (· = c)).reverse⟩

/-- Model of `name.replace(' ', '-')`. -/
def dashName (s : String) : String :=
  ⟨s.data.map (fun c => if c = ' ' then '-' else c)⟩

/-- Model of `name.replace(' ', '_')` (attribute names of data points). -/
def underscoreName (s : String) : String :=
  ⟨s.data.map (fun c => if c = ' ' then '_' else c)⟩

/-- Model of Python `s.split(',')` (keeps empty pieces). -/
def splitOnComma (s : String) : List String :=
  (splitChars (· = ',') s.data).map String.mk

/-- Model of Python `name[0]` on a non-empty string (a one-character string). -/
def firstChar (t : String) : String :=
  match t.data with
  | [] => ""
  | c :: _ => ⟨[c]⟩

/-! ## Units and quantities (fragment of the pint registry used by the code) -/

/-- Physical dimensions occurring in the PyKED property table. -/
inductive Dim
  | temp
  | press
  | time
  | invTime
  | vol
deriving DecidableEq, Repr

/-- A unit: its dimension and its scale relative to the SI base unit of that
dimension. -/
structure UnitDef where
  dim : Dim
  scale : ℚ
deriving DecidableEq, Repr

/-- Fragment of the pint unit registry (the external unit library) covering the
units exercised in this development; an unknown unit is `none`, which models
pint raising `UndefinedUnitError`. -/
def unit_registry (u : String) : Option UnitDef :=
  if u = "kelvin" ∨ u = "K" then some ⟨.temp, 1⟩
  else if u = "pascal" ∨ u = "Pa" then some ⟨.press, 1⟩
  else if u = "kPa" then some ⟨.press, 1000⟩
  else if u = "bar" then some ⟨.press, 100000⟩
  else if u = "atm" then some ⟨.press, 101325⟩
  else if u = "torr" ∨ u = "Torr" then some ⟨.press, 101325 / 760⟩
  else if u = "second" ∨ u = "s" then some ⟨.time, 1⟩
  else if u = "ms" then some ⟨.time, 1 / 1000⟩
  else if u = "us" then some ⟨.time, 1 / 1000000⟩
  else if u = "1.0 / second" ∨ u = "1/s" then some ⟨.invTime, 1⟩
  else if u = "meter**3" ∨ u = "cm**3" then
    some (if u = "cm**3" then ⟨.vol, 1 / 1000000⟩ else ⟨.vol, 1⟩)
  else none

/-- SI units for available value-type properties (`property_units` in
`validation.py`); `none` models a `KeyError` on a missing key. -/
def property_units (field : String) : Option String :=
  if field = "temperature" then some "kelvin"
  else if field = "pressure" then some "pascal"
  else if field = "ignition-delay" then some "second"
  else if field = "pressure-rise" then some "1.0 / second"
  else if field = "compression-time" then some "second"
  else if field = "volume" then some "meter**3"
  else if field = "time" then some "second"
  else none

/-- A pint quantity: a magnitude bound to a unit string. -/
structure Quantity where
  mag : ℚ
  units : String
deriving DecidableEq, Repr

/-- Pint equality of two quantities: dimensionally compatible and equal after
conversion to the base unit.  Quantities whose units are outside the registry
fragment never arise from validated records; structural equality is the
fallback for them. -/
def qEq (a b : Quantity) : Bool :=
  match unit_registry a.units, unit_registry b.units with
  | some ua, some ub =>
      decide (ua.dim = ub.dim) && decide (a.mag * ua.scale = b.mag * ub.scale)
  | _, _ => decide (a = b)

/-- Python truthiness of an optional pint quantity (`bool(q)` is
`bool(q.magnitude)`; `None` is falsy). -/
def truthyQ : Option Quantity → Bool
  | none => false
  | some q => decide (q.mag ≠ 0)

/-- Normalization of the `Torr` spelling performed by the importer. -/
def normalizeTorr (u : String) : String := if u = "Torr" then "torr" else u

/-! ## validation.py: the quantity and unit rules -/

/-- Model of `OurValidator._validate_isvalid_unit`: errors accumulated for the
field, `none` when the source would crash (unknown unit or unknown field). -/
def validate_isvalid_unit (skipValidation isvalid_unit : Bool) (field : String)
    (valueUnits : String) : Option (List (String × String)) :=
  if isvalid_unit && !skipValidation then
    match property_units field with
    | none => none
    | some fieldUnits =>
      match unit_registry valueUnits, unit_registry fieldUnits with
      | some uv, some uf =>
          if uv.dim = uf.dim then some []
          else some [(field, "incompatible units; should be consistent with " ++ fieldUnits)]
      | _, _ => none
  else some []

/-- Model of `OurValidator._validate_isvalid_quantity`: the quantity must be
dimensionally compatible with the field unit and strictly positive; `none`
when the source would crash (unknown unit or unknown field). -/
def validate_isvalid_quantity (skipValidation isvalid_quantity : Bool) (field : String)
    (value : Quantity) : Option (List (String × String)) :=
  if isvalid_quantity && !skipValidation then
    match property_units field with
    | none => none
    | some fieldUnits =>
      match unit_registry value.units, unit_registry fieldUnits with
      | some uv, some uf =>
          if uv.dim = uf.dim then
            if value.mag * uv.scale ≤ 0 * uf.scale then
              some [(field, "value must be greater than 0.0 " ++ fieldUnits)]
            else some []
          else some [(field, "incompatible units; should be consistent with " ++ fieldUnits)]
      | _, _ => none
  else some []

/-! ## validation.py: compare_name -/

/-- Replace the head element of a list (`xs[0] = v` on a non-empty list). -/
def upd0 (l : List String) (v : String) : List String :=
  match l with
  | [] => []
  | _ :: t => v :: t

/-- Middle-name adjustment block of `compare_name` (the three
`len(first_name)` and `len(given_name)` cases). -/
def adjustMiddle : List String → List String → List String × List String
  | [a, b], [c, d] => ([a, firstChar b], [c, firstChar d])
  | [a], [c, _] => ([a], [c])
  | [a, _], [c] => ([a], [c])
  | f, g => (f, g)

/-- Body of `compare_name` after its inputs have been lowercased.  `none`
models the `IndexError` raised on an empty token list. -/
def compareNameLowered (given family question : String) : Option Bool := do
  let question :=
    if containsChar question ',' then
      stripWs (joinSpace (splitOnComma question).reverse)
    else question
  let name_split := tokenize question
  let n0 ← name_split.head?
  let first_name := if name_split.length = 3 then [n0, name_split.getD 1 ""] else [n0]
  let given_name := tokenize given
  let (first_name, given_name) := adjustMiddle first_name given_name
  let fn0 := first_name.headD ""
  let (first_name, given_name) ←
    if fn0.length = 1 then
      match given_name.head? with
      | none => none
      | some g0 => some (upd0 first_name (firstChar fn0), upd0 given_name (firstChar g0))
    else
      match given_name.head? with
      | none => none
      | some g0 =>
        if g0.length = 1 then
          some (upd0 first_name (firstChar fn0), upd0 given_name (firstChar g0))
        else some (first_name, given_name)
  let fn1 := first_name.headD ""
  let (first_name, given_name) ←
    if fn1.length = 2 then
      match given_name.head? with
      | none => none
      | some g0 => some (upd0 first_name (firstChar n0), upd0 given_name (firstChar g0))
    else
      match given_name.head? with
      | none => none
      | some g0 =>
        if g0.length = 2 then
          some (upd0 first_name (firstChar n0), upd0 given_name (firstChar g0))
        else some (first_name, given_name)
  pure (decide (given_name = first_name) &&
        decide (family = (name_split.getLast?.getD "")))

/-- Model of `compare_name` in `validation.py`: lowercases all three inputs and
delegates to the body. -/
def compare_name (given family question : String) : Option Bool :=
  compareNameLowered (lowerStr given) (lowerStr family) (lowerStr question)

/-! ## validation.py: reference and identity rules -/

/-- An author entry of a reference in a ChemKED document. -/
structure AuthorInfo where
  name : String
  orcid : Option String := none
deriving DecidableEq, Repr

/-- The reference metadata dictionary passed to the reference rule. -/
structure RefValue where
  doi : Option String := none
  journal : Option String := none
  year : Option Int := none
  volume : Option Int := none
  pages : Option String := none
  authors : List AuthorInfo := []
deriving DecidableEq, Repr

/-- An author record returned by the Crossref lookup. -/
structure CRAuthor where
  given : String
  family : String
  orcid : Option String := none
deriving DecidableEq, Repr

/-- Bibliographic metadata returned by the Crossref DOI lookup (the external
reference resolver); the year is the published-print or published-online year
already extracted. -/
structure CRWork where
  containerTitle : List String
  publishedYear : Int
  volume : Option Int := none
  page : Option String := none
  authors : List CRAuthor := []
deriving DecidableEq, Repr

/-- Outcome of a DOI lookup: found metadata, an HTTP not-found failure, or a
network transport failure. -/
inductive LookupOutcome
  | found (w : CRWork)
  | notFound
  | netError
deriving DecidableEq, Repr

/-- Model of `', '.join(parts)`. -/
def joinComma (parts : List String) : String :=
  ⟨List.intercalate [',', ' '] (parts.map String.data)⟩

/-- Model of `orcid[orcid.rfind('/') + 1:]`: the part after the last slash
(the whole string when there is none). -/
def stripOrcidUrl (s : String) : String :=
  ⟨(s.data.reverse.takeWhile (· ≠ '/')).reverse⟩

/-- Model of `next((a for a in authors if compare_name(...)), None)`:
the first author entry whose name matches; the outer `none` models an
`IndexError` escaping from `compare_name`. -/
def findAuthorMatch (given family : String) :
    List AuthorInfo → Option (Option AuthorInfo)
  | [] => some none
  | a :: rest =>
    match compare_name given family a.name with
    | none => none
    | some true => some (some a)
    | some false => findAuthorMatch given family rest

/-- Author roster loop of `_validate_isvalid_reference`: walks the canonical
author list, removing matched names and accumulating errors; the outer `none`
models a crash (`IndexError` from `compare_name`, or `list.remove` on a name
that is no longer present). -/
def refAuthorsLoop (field : String) (authors : List AuthorInfo) :
    List CRAuthor → List String → List (String × String) →
    Option (List String × List (String × String))
  | [], names, errs => some (names, errs)
  | a :: rest, names, errs =>
    match findAuthorMatch a.given a.family authors with
    | none => none
    | some none =>
        refAuthorsLoop field authors rest names
          (errs ++ [(field, "Missing author: " ++ a.given ++ " " ++ a.family)])
    | some (some am) =>
        if am.name ∈ names then
          let names := names.erase am.name
          let errs := errs ++
            (match a.orcid with
             | some o =>
               let o := stripOrcidUrl o
               (match am.orcid with
                | some amo =>
                  if amo = o then []
                  else
                    [(field, am.name ++ " ORCID does not match that in reference. Reference: "
                       ++ o ++ ". Given: " ++ amo)]
                | none => [])
             | none => [])
          refAuthorsLoop field authors rest names errs
        else none

/-- Model of `OurValidator._validate_isvalid_reference`: checks reference
metadata against the Crossref resolver when a DOI is present and validation is
not skipped; `none` models an uncaught crash inside the author loop. -/
def validate_isvalid_reference (skipValidation isvalid_reference : Bool) (field : String)
    (value : RefValue) (resolve : String → LookupOutcome) :
    Option (List (String × String)) :=
  match value.doi with
  | none => some []
  | some doi =>
    if isvalid_reference && !skipValidation then
      match resolve doi with
      | .notFound => some [(field, "DOI not found")]
      | .netError => some []
      | .found w =>
        let errs : List (String × String) :=
          (match value.journal with
           | some j =>
             if j ∈ w.containerTitle then []
             else [(field, "journal does not match: " ++ joinComma w.containerTitle)]
           | none => [])
        let errs := errs ++
          (match value.year with
           | some y =>
             if y = w.publishedYear then []
             else [(field, "year should be " ++ toString w.publishedYear)]
           | none => [])
        let errs := errs ++
          (match value.volume, w.volume with
           | some v, some wv =>
             if v = wv then [] else [(field, "volume number should be " ++ toString wv)]
           | _, _ => [])
        let errs := errs ++
          (match value.pages, w.page with
           | some p, some wp =>
             if p = wp then [] else [(field, "pages should be " ++ wp)]
           | _, _ => [])
        match refAuthorsLoop field value.authors w.authors
            (value.authors.map (·.name)) errs with
        | none => none
        | some (names, errs) =>
          if names.length > 0 then
            some (errs ++ [(field, "Extra author(s) given: " ++ joinComma names)])
          else some errs
    else some []

/-- An author dictionary passed to the identity (ORCID) rule. -/
structure AuthorValue where
  name : String
  orcid : Option String := none
deriving DecidableEq, Repr

/-- Outcome of an ORCID public-profile search: a transport failure, zero
results, or the given and family name of the first result. -/
inductive OrcidOutcome
  | netError
  | notFound
  | found (given family : String)
deriving DecidableEq, Repr

/-- Model of `OurValidator._validate_isvalid_orcid`: checks the stated author
name against the ORCID search service when an ORCID is present and validation
is not skipped; `none` models an `IndexError` escaping from `compare_name`. -/
def validate_isvalid_orcid (skipValidation isvalid_orcid : Bool) (field : String)
    (value : AuthorValue) (search : String → OrcidOutcome) :
    Option (List (String × String)) :=
  match value.orcid with
  | none => some []
  | some oid =>
    if isvalid_orcid && !skipValidation then
      match search oid with
      | .netError => some []
      | .notFound => some [(field, "ORCID incorrect or invalid for " ++ value.name)]
      | .found given family =>
        match compare_name given family value.name with
        | none => none
        | some b =>
          if b then some []
          else
            some [(field, "Name and ORCID do not match. Name supplied: " ++ value.name ++
              ". Name associated with ORCID: " ++ given ++ " " ++ family)]
    else some []

/-! ## validation.py: the module-level skip flag and validator instances -/

/-- The module-level state of `validation.py`: the `_mod_skip_validation` flag
together with the warnings emitted so far. -/
structure ModuleState where
  mod_skip_validation : Bool
  warnings : List String
deriving DecidableEq, Repr

/-- Model of the module-level `disable_validation`: warns and sets the flag. -/
def disable_validation (s : ModuleState) : ModuleState :=
  { mod_skip_validation := true, warnings := s.warnings ++ ["validation disabled."] }

/-- Model of the module-level `enable_validation`: warns and clears the flag. -/
def enable_validation (s : ModuleState) : ModuleState :=
  { mod_skip_validation := false, warnings := s.warnings ++ ["validation enabled."] }

/-- The state of one `OurValidator` instance: its `_skip_validation` field. -/
structure OurValidator where
  skip_validation : Bool
deriving DecidableEq, Repr

/-- Model of `OurValidator.__init__`: copies the module flag into the
instance. -/
def OurValidator.init (s : ModuleState) : OurValidator :=
  ⟨s.mod_skip_validation⟩

/-- Model of the instance method `disable_validation`: sets the instance flag
and returns the warning it emits. -/
def OurValidator.disableValidation (_ : OurValidator) : OurValidator × String :=
  (⟨true⟩, "validation disabled.")

/-- Model of the instance method `enable_validation`: clears the instance flag
and returns the warning it emits. -/
def OurValidator.enableValidation (_ : OurValidator) : OurValidator × String :=
  (⟨false⟩, "validation enabled.")

/-- The relevant process state: the module of `validation.py` plus every
constructed validator instance, in construction order. -/
structure PyWorld where
  module : ModuleState
  validators : List OurValidator
deriving DecidableEq, Repr

/-- Constructing a new `OurValidator` while the module flag has its current
value. -/
def newValidator (w : PyWorld) : PyWorld :=
  { w with validators := w.validators ++ [OurValidator.init w.module] }

/-- Calling the module-level `disable_validation`. -/
def moduleDisableValidation (w : PyWorld) : PyWorld :=
  { w with module := disable_validation w.module }

/-- Calling the module-level `enable_validation`. -/
def moduleEnableValidation (w : PyWorld) : PyWorld :=
  { w with module := enable_validation w.module }

/-- Apply a function to the element at one position of a list, leaving the
rest unchanged. -/
def modifyAt {α : Type} (f : α → α) : List α → Nat → List α
  | [], _ => []
  | v :: rest, 0 => f v :: rest
  | v :: rest, n + 1 => v :: modifyAt f rest n

/-- Calling `disable_validation` on the validator instance at one index. -/
def instanceDisableValidation (w : PyWorld) (i : Nat) : PyWorld :=
  { w with validators := modifyAt (fun v => (v.disableValidation).1) w.validators i }

/-- Calling `enable_validation` on the validator instance at one index. -/
def instanceEnableValidation (w : PyWorld) (i : Nat) : PyWorld :=
  { w with validators := modifyAt (fun v => (v.enableValidation).1) w.validators i }

/-! ## converters.py: errors and source-document model -/

/-- The exceptions raised by `converters.py` (and by the validating load of the
produced document). -/
inductive ConvErr
  | missingElement (name : String)
  | missingAttribute (attr elem : String)
  | keyword (msg : String)
  | notImplemented (msg : String)
  | keyError (msg : String)
  | undefinedUnit (u : String)
  | attributeError (msg : String)
  | assertionFailed (msg : String)
  | unboundLocal (name : String)
  | typeError (msg : String)
  | validationError (field msg : String)
deriving DecidableEq, Repr

/-- One `component` child of an `initial composition` property element. -/
structure RSComponent where
  preferredKey : String
  inchi : Option String := none
  amount : ℚ
  amountUnits : String
deriving DecidableEq, Repr

/-- One `property` element under `commonProperties`: its `name` attribute
decides whether its `value` text or its `component` children are read. -/
structure RSPropElem where
  name : String
  units : String := ""
  value : ℚ := 0
  components : List RSComponent := []
deriving DecidableEq, Repr

/-- One `property` column declaration of a `dataGroup`. -/
structure DGProp where
  id : String
  name : String
  units : String
deriving DecidableEq, Repr

/-- One `dataGroup`: its column declarations and its `dataPoint` rows, each row
a list of (column id, numeric text) children. -/
structure RSDataGroup where
  props : List DGProp := []
  rows : List (List (String × ℚ)) := []
deriving DecidableEq, Repr

/-- A source ReSpecTh document, restricted to the parts the importer reads. -/
structure RSDoc where
  fileAuthor : String
  doiAttr : Option String := none
  preferredKeyAttr : Option String := none
  experimentType : String
  apparatusKind : String
  commonProps : List RSPropElem := []
  ignitionTargetAttr : String
  ignitionTypeAttr : String
  dataGroups : List RSDataGroup := []
deriving DecidableEq, Repr

/-! ## converters.py: importer pieces -/

/-- One species entry of a parsed composition. -/
structure SpeciesEntry where
  speciesName : String
  inchi : Option String := none
  amount : ℚ
deriving DecidableEq, Repr

/-- A parsed composition: its species and its kind (mole or mass fraction). -/
structure Composition where
  species : List SpeciesEntry
  kind : String
deriving DecidableEq, Repr

/-- Python truthiness of the `composition_type` variable: unset (`None`) or an
empty string. -/
def pyFalsyStr : Option String → Bool
  | none => true
  | some s => decide (s = "")

/-- The component loop of the `initial composition` branch of
`get_common_properties`: collects species and checks unit consistency against
the first (truthy) unit seen. -/
def parseCompositionLoop :
    List RSComponent → List SpeciesEntry → Option String →
    Except ConvErr (List SpeciesEntry × Option String)
  | [], acc, ct => .ok (acc, ct)
  | c :: rest, acc, ct =>
    let acc := acc ++ [⟨c.preferredKey, c.inchi, c.amount⟩]
    if pyFalsyStr ct then parseCompositionLoop rest acc (some c.amountUnits)
    else if ct = some c.amountUnits then parseCompositionLoop rest acc ct
    else .error (.keyword "inconsistent initial composition units")

/-- The `initial composition` branch of `get_common_properties`, including the
final assertion that the composition type is mole or mass fraction. -/
def parseComposition (cs : List RSComponent) : Except ConvErr Composition := do
  let (entries, ct) ← parseCompositionLoop cs [] none
  match ct with
  | some k =>
    if k = "mole fraction" ∨ k = "mass fraction" then .ok ⟨entries, k⟩
    else .error (.assertionFailed "composition type")
  | none => .error (.assertionFailed "composition type")

/-- The common properties collected by `get_common_properties` (a dictionary
with at most these keys). -/
structure CommonProps where
  composition : Option Composition := none
  temperature : Option Quantity := none
  pressure : Option Quantity := none
  pressureRise : Option Quantity := none
  compressionTime : Option Quantity := none
deriving DecidableEq, Repr

/-- Store a scalar common property under its dashed field name. -/
def setCommonScalar (props : CommonProps) (field : String) (q : Quantity) : CommonProps :=
  if field = "temperature" then { props with temperature := some q }
  else if field = "pressure" then { props with pressure := some q }
  else if field = "pressure-rise" then { props with pressureRise := some q }
  else if field = "compression-time" then { props with compressionTime := some q }
  else props

/-- Processing of one `commonProperties/property` element, dispatching on its
`name` attribute exactly as the source loop does. -/
def applyCommonProp (props : CommonProps) (p : RSPropElem) : Except ConvErr CommonProps :=
  if p.name = "initial composition" then do
    let comp ← parseComposition p.components
    .ok { props with composition := some comp }
  else if p.name = "temperature" ∨ p.name = "pressure" ∨ p.name = "pressure rise" ∨
      p.name = "compression time" then
    let field := dashName p.name
    let units := normalizeTorr p.units
    match unit_registry units with
    | none => .error (.undefinedUnit units)
    | some uv =>
      match (property_units field).bind unit_registry with
      | none => .error (.keyError field)
      | some uf =>
        if uv.dim = uf.dim then .ok (setCommonScalar props field ⟨p.value, units⟩)
        else .error (.keyword ("units incompatible for property " ++ p.name))
  else .error (.keyword ("Property " ++ p.name ++ " not supported as common property."))

/-- Model of `get_common_properties`. -/
def get_common_properties (elems : List RSPropElem) : Except ConvErr CommonProps :=
  elems.foldlM applyCommonProp {}

/-- The parsed ignition definition. -/
structure Ignition where
  target : String
  typ : String
deriving DecidableEq, Repr

/-- Model of `s.split(';')` (keeps empty pieces). -/
def splitOnSemi (s : String) : List String :=
  (splitChars (· = ';') s.data).map String.mk

/-- Model of `get_ignition_type`: normalizes, rejects compound targets, checks
the allow-lists, and maps P and T to their canonical names. -/
def get_ignition_type (targetAttr typeAttr : String) : Except ConvErr Ignition :=
  let ign_target := upperStr (rstripChar targetAttr ';')
  let ign_type := typeAttr
  if (splitOnSemi ign_target).length > 1 then
    .error (.notImplemented "Multiple ignition targets not supported.")
  else
    let ign_target := if ign_target = "OHEX" then "OH*"
      else if ign_target = "CHEX" then "CH*" else ign_target
    if ign_target ∉ (["P", "T", "OH", "OH*", "CH*", "CH"] : List String) then
      .error (.keyword (ign_target ++ " not valid ignition target"))
    else if ign_type ∉ (["max", "d/dt max", "1/2 max", "min"] : List String) then
      .error (.keyword (ign_type ++ " not valid ignition type"))
    else
      let ign_target := if ign_target = "P" then "pressure"
        else if ign_target = "T" then "temperature" else ign_target
      .ok ⟨ign_target, ign_type⟩

/-- Model of `get_experiment_kind`: only ignition delay measurements with a
shock tube or rapid compression machine apparatus are supported. -/
def get_experiment_kind (experimentType apparatusKind : String) :
    Except ConvErr (String × String) :=
  if experimentType = "Ignition delay measurement" then
    if apparatusKind = "shock tube" ∨ apparatusKind = "rapid compression machine" then
      .ok ("ignition delay", apparatusKind)
    else .error (.notImplemented (apparatusKind ++ " experiment not (yet) supported"))
  else .error (.notImplemented (experimentType ++ " not (yet) supported"))

/-- Valid properties for a ReSpecTh dataGroup (`datagroup_properties`). -/
def datagroup_properties : List String :=
  ["temperature", "pressure", "ignition delay", "pressure rise"]

/-- The volume-time history attached to a data point by the importer; a pair
component is `none` when the row lacks the corresponding column (Python keeps
`None` in the list). -/
structure VolumeHistoryXML where
  timeUnits : String
  volumeUnits : String
  values : List (Option ℚ × Option ℚ)
deriving DecidableEq, Repr

/-- One data-point dictionary as built by the importer (before and after the
common-property broadcast). -/
structure DPDict where
  temperature : Option Quantity := none
  pressure : Option Quantity := none
  ignitionDelay : Option Quantity := none
  pressureRise : Option Quantity := none
  compressionTime : Option Quantity := none
  composition : Option Composition := none
  ignitionType : Option Ignition := none
  volumeHistory : Option VolumeHistoryXML := none
deriving DecidableEq, Repr

/-- The per-column name check of the first dataGroup: every declared property
name must be a valid dataGroup property. -/
def checkDGPropNames (props : List DGProp) : Except ConvErr Unit :=
  match props.find? (fun p => decide (p.name ∉ datagroup_properties)) with
  | some p => .error (.keyError (p.name ++ " not valid dataPoint property"))
  | none => .ok ()

/-- Store a data-point value under its dashed property name. -/
def setDPField (dp : DPDict) (field : String) (q : Quantity) : DPDict :=
  if field = "temperature" then { dp with temperature := some q }
  else if field = "pressure" then { dp with pressure := some q }
  else if field = "ignition-delay" then { dp with ignitionDelay := some q }
  else if field = "pressure-rise" then { dp with pressureRise := some q }
  else dp

/-- Build one data-point dictionary from a row: each child value is resolved
through the id dictionaries (last declaration of an id wins, matching the
Python dict) and stored with normalized units. -/
def buildDatapoint (props : List DGProp) (row : List (String × ℚ)) :
    Except ConvErr DPDict :=
  row.foldlM
    (fun dp val =>
      match (props.reverse).find? (fun p => p.id = val.1) with
      | none => .error (.keyError val.1)
      | some p =>
        .ok (setDPField dp (dashName p.name) ⟨val.2, normalizeTorr p.units⟩))
    {}

/-- Parse the second dataGroup as a volume-time history; a missing time or
volume column leaves the corresponding local unbound in the source. -/
def parseVolumeHistory (dg : RSDataGroup) : Except ConvErr VolumeHistoryXML :=
  match (dg.props.filter (·.name = "time")).getLast? with
  | none => .error (.unboundLocal "time_dict")
  | some tp =>
    match (dg.props.filter (·.name = "volume")).getLast? with
    | none => .error (.unboundLocal "volume_dict")
    | some vp =>
      .ok { timeUnits := tp.units, volumeUnits := vp.units,
            values := dg.rows.map (fun row =>
              ((row.reverse.find? (fun v => v.1 = tp.id)).map (·.2),
               (row.reverse.find? (fun v => v.1 = vp.id)).map (·.2))) }

/-- Model of `get_datapoints`: the first dataGroup yields the data points, an
optional second dataGroup yields a volume history on the sole data point. -/
def get_datapoints (apparatusKind : String) (dataGroups : List RSDataGroup) :
    Except ConvErr (List DPDict) :=
  match dataGroups with
  | [] => .error (.missingElement "dataGroup")
  | dg :: rest => do
    checkDGPropNames dg.props
    if dg.props.length = 0 then .error (.missingElement "property")
    else do
      let dps ← dg.rows.mapM (buildDatapoint dg.props)
      if dps.length = 0 then .error (.missingElement "dataPoint")
      else
        match rest with
        | [] => .ok dps
        | [dg2] =>
          if apparatusKind ≠ "rapid compression machine" then
            .error (.assertionFailed "Second dataGroup only valid for RCM.")
          else if dps.length ≠ 1 then
            .error (.assertionFailed "Multiple datapoints for single volume history.")
          else do
            let vh ← parseVolumeHistory dg2
            match dps with
            | d :: ds => .ok ({ d with volumeHistory := some vh } :: ds)
            | [] => .error (.missingElement "dataPoint")
        | _ :: _ :: _ => .error (.notImplemented "More than two DataGroups not supported.")

/-! ## converters.py: reference import and the full importer -/

/-- The reference dictionary built by `get_reference`. -/
structure ImportedReference where
  doi : Option String := none
  journal : Option String := none
  year : Option Int := none
  volume : Option Int := none
  pages : Option String := none
  authors : Option (List AuthorInfo) := none
  detail : Option String := none
deriving DecidableEq, Repr

/-- Model of `get_reference`: resolve the DOI through the Crossref resolver
when present; on a missing DOI or a failed lookup fall back to the
`preferredKey` attribute (suffixing a period when absent). -/
def get_reference (resolve : String → LookupOutcome)
    (doiAttr preferredKeyAttr : Option String) : Except ConvErr ImportedReference :=
  let fallback : Option String → Except ConvErr ImportedReference := fun doiVal =>
    match preferredKeyAttr with
    | none => .error (.missingAttribute "preferredKey" "bibliographyLink")
    | some k =>
      match k.data.getLast? with
      | none => .error (.keyError "string index out of range")
      | some lastC =>
        .ok { doi := doiVal, detail := some (if lastC = '.' then k else k ++ ".") }
  match doiAttr with
  | none => fallback none
  | some d =>
    match resolve d with
    | .notFound => fallback (some d)
    | .netError => fallback (some d)
    | .found w =>
      match w.containerTitle.head? with
      | none => .error (.keyError "container-title")
      | some j =>
        match w.volume with
        | none => .error (.typeError "int() argument must not be None")
        | some v =>
          .ok { doi := some d, journal := some j, year := some w.publishedYear,
                volume := some v, pages := w.page,
                authors := some (w.authors.map (fun a =>
                  { name := a.given ++ " " ++ a.family, orcid := a.orcid })) }

/-- The record built by `convert_ReSpecTh` (the dictionary written to YAML). -/
structure ImportedRecord where
  fileAuthorName : String
  fileAuthorOrcid : Option String := none
  reference : ImportedReference
  experimentType : String
  apparatusKind : String
  common : CommonProps
  commonIgnition : Ignition
  datapoints : List DPDict
deriving DecidableEq, Repr

/-- The common-property broadcast loop of `convert_ReSpecTh`: every key present
in the common-properties dictionary is assigned into the data point, and the
ignition type key is always present. -/
def broadcastCommon (cp : CommonProps) (ign : Ignition) (dp : DPDict) : DPDict :=
  { dp with
    composition := if cp.composition.isSome then cp.composition else dp.composition,
    temperature := if cp.temperature.isSome then cp.temperature else dp.temperature,
    pressure := if cp.pressure.isSome then cp.pressure else dp.pressure,
    pressureRise := if cp.pressureRise.isSome then cp.pressureRise else dp.pressureRise,
    compressionTime :=
      if cp.compressionTime.isSome then cp.compressionTime else dp.compressionTime,
    ignitionType := some ign }

/-- Modelled from the spec: the schema of the ChemKED loader flags the
value-type data-point properties for quantity validation (the schema file is
not part of the sources here); the rule applied per field is
`_validate_isvalid_quantity` from `validation.py`. -/
def validateQuantityField (field : String) (q : Option Quantity) : Except ConvErr Unit :=
  match q with
  | none => .ok ()
  | some qv =>
    match validate_isvalid_quantity false true field qv with
    | none => .error (.keyError field)
    | some [] => .ok ()
    | some ((f, msg) :: _) => .error (.validationError f msg)

/-- Modelled from the spec: validation performed by loading the written YAML
file through `ChemKED(yaml_file=...)` — each data-point quantity must be
dimensionally consistent with its field and strictly positive. -/
def validateDataPoint (dp : DPDict) : Except ConvErr Unit := do
  validateQuantityField "temperature" dp.temperature
  validateQuantityField "pressure" dp.pressure
  validateQuantityField "ignition-delay" dp.ignitionDelay
  validateQuantityField "pressure-rise" dp.pressureRise
  validateQuantityField "compression-time" dp.compressionTime

/-- Model of `convert_ReSpecTh` (file input and output mechanics elided): parse
every section, run the cross-field checks, broadcast the common properties
into the data points, drop compression time from the common properties, and
validate the result as the ChemKED load of the written file would. -/
def convert_ReSpecTh (resolve : String → LookupOutcome) (xmlBasename : String)
    (file_author : String) (file_author_orcid : String) (doc : RSDoc) :
    Except ConvErr ImportedRecord := do
  if doc.fileAuthor = "" then .error (.missingElement "fileAuthor")
  else do
    let ref ← get_reference resolve doc.doiAttr doc.preferredKeyAttr
    let ref := { ref with
      detail := some ((ref.detail.getD "") ++ "Converted from XML file " ++ xmlBasename) }
    let (expType, appKind) ← get_experiment_kind doc.experimentType doc.apparatusKind
    let common ← get_common_properties doc.commonProps
    let ign ← get_ignition_type doc.ignitionTargetAttr doc.ignitionTypeAttr
    let dps ← get_datapoints doc.apparatusKind doc.dataGroups
    -- The volume/time and volume/pressure-rise combination checks of the source
    -- cannot fire here: volume and time are rejected as common properties by
    -- `get_common_properties`, and the first dataGroup only admits the four
    -- `datagroup_properties`, so no data-point dictionary ever has a volume key.
    if (common.compressionTime.isSome ∨ dps.any (fun dp => dp.compressionTime.isSome)) ∧
        appKind = "shock tube" then
      .error (.keyword "Compression time cannot be defined for shock tube.")
    else if (common.pressureRise.isSome ∨ dps.any (fun dp => dp.pressureRise.isSome)) ∧
        appKind = "rapid compression machine" then
      .error (.keyword "Pressure rise cannot be defined for RCM.")
    else do
      let fileAuthorName := if file_author ≠ "" then file_author else doc.fileAuthor
      let fileAuthorOrcid := if file_author_orcid ≠ "" then some file_author_orcid else none
      let dps := dps.map (broadcastCommon common ign)
      let common := { common with compressionTime := none }
      dps.forM validateDataPoint
      .ok { fileAuthorName, fileAuthorOrcid, reference := ref, experimentType := expType,
            apparatusKind := appKind, common, commonIgnition := ign, datapoints := dps }

/-! ## The ChemKED record consumed by the exporter -/

/-- A volume history carried by a loaded ChemKED data point. -/
structure VolumeHistoryCK where
  timeUnits : String
  volumeUnits : String
  values : List (ℚ × ℚ)
deriving DecidableEq, Repr

/-- A loaded ChemKED data point, with the attributes the exporter reads. -/
structure CKDataPoint where
  temperature : Option Quantity := none
  pressure : Option Quantity := none
  ignition_delay : Option Quantity := none
  pressure_rise : Option Quantity := none
  composition : List SpeciesEntry := []
  composition_type : String := ""
  ignition_type : Ignition
  volume_history : Option VolumeHistoryCK := none
deriving DecidableEq, Repr

/-- A loaded ChemKED record, with the attributes the exporter reads. -/
structure CKRecord where
  file_author : String
  file_version : Int := 0
  experiment_type : String
  apparatus_kind : String
  reference : ImportedReference
  datapoints : List CKDataPoint
deriving DecidableEq, Repr

/-- Modelled from the spec: the ChemKED loader re-reads one written data
point into a typed data point holding parsed quantities; the point must carry
a composition and an ignition definition, and a volume history must have
complete (time, volume) rows (`chemked.py` is not among the sources here). -/
def toChemKEDPoint (dp : DPDict) : Except ConvErr CKDataPoint :=
  match dp.composition with
  | none => Except.error (ConvErr.validationError "composition" "required field")
  | some comp =>
    match dp.ignitionType with
    | none => Except.error (ConvErr.validationError "ignition-type" "required field")
    | some ign =>
      match dp.volumeHistory with
      | none =>
        Except.ok { temperature := dp.temperature, pressure := dp.pressure,
                    ignition_delay := dp.ignitionDelay,
                    pressure_rise := dp.pressureRise,
                    composition := comp.species, composition_type := comp.kind,
                    ignition_type := ign, volume_history := none }
      | some v =>
        (v.values.mapM (fun tv =>
          match tv.1, tv.2 with
          | some t, some vol => Except.ok (t, vol)
          | _, _ =>
            Except.error (ConvErr.validationError "volume-history" "incomplete row")))
        >>= fun vals =>
        Except.ok { temperature := dp.temperature, pressure := dp.pressure,
                    ignition_delay := dp.ignitionDelay,
                    pressure_rise := dp.pressureRise,
                    composition := comp.species, composition_type := comp.kind,
                    ignition_type := ign,
                    volume_history := some ⟨v.timeUnits, v.volumeUnits, vals⟩ }

/-- Modelled from the spec: the ChemKED class (`chemked.py`, not among the
sources here) re-reads the written record into typed data points. -/
def toChemKED (r : ImportedRecord) : Except ConvErr CKRecord :=
  (r.datapoints.mapM toChemKEDPoint) >>= fun dps =>
  Except.ok { file_author := r.fileAuthorName, experiment_type := r.experimentType,
              apparatus_kind := r.apparatusKind, reference := r.reference,
              datapoints := dps }

/-! ## converters.py: the exporter -/

/-- A scalar common property emitted at record level by the exporter. -/
structure OutCommonScalar where
  name : String
  units : String
  value : ℚ
deriving DecidableEq, Repr

/-- A property column emitted inside a dataGroup. -/
structure OutColumn where
  id : String
  name : String
  units : String
  label : String
deriving DecidableEq, Repr

/-- A dataGroup of the produced document. -/
structure OutDataGroup where
  id : String
  columns : List OutColumn
  rows : List (List (String × ℚ))
deriving DecidableEq, Repr

/-- The produced ReSpecTh document, restricted to the parts the exporter
writes. -/
structure OutDoc where
  fileAuthorText : String
  experimentTypeText : String
  bibPreferredKey : String
  bibDoi : Option String
  apparatusKind : String
  commonComposition : Option (String × List SpeciesEntry)
  commonScalars : List OutCommonScalar
  dataGroups : List OutDataGroup
  ignitionTarget : String
  ignitionType : String
deriving DecidableEq, Repr

/-- Model of `getattr(dp, prop_name.replace(' ', '_'))` for the four tracked
scalar properties. -/
def getattrQ (dp : CKDataPoint) (prop_name : String) : Option Quantity :=
  if prop_name = "temperature" then dp.temperature
  else if prop_name = "pressure" then dp.pressure
  else if prop_name = "ignition delay" then dp.ignition_delay
  else if prop_name = "pressure rise" then dp.pressure_rise
  else none

/-- The display labels of the exporter. -/
def propLabel (prop_name : String) : String :=
  if prop_name = "temperature" then "T"
  else if prop_name = "pressure" then "P"
  else if prop_name = "ignition delay" then "tau"
  else "dP/dt"

/-- The common-property detection loop of the exporter (run only when more
than one data point exists): a property is common when the first point defines
it and every point's value compares equal; it returns the common names and the
emitted record-level scalars, in loop order. -/
def detectCommonScalars (dps : List CKDataPoint) (dp0 : CKDataPoint) :
    List String × List OutCommonScalar :=
  datagroup_properties.foldl
    (fun (acc : List String × List OutCommonScalar) prop_name =>
      match getattrQ dp0 prop_name with
      | none => acc
      | some q =>
        if dps.all (fun dp =>
            match getattrQ dp prop_name with
            | some r => qEq q r
            | none => false) then
          (acc.1 ++ [prop_name], acc.2 ++ [⟨prop_name, q.units, q.mag⟩])
        else acc)
    ([], [])

/-- The dataGroup property-column loop of the exporter: one column per tracked
property that is not common and is truthy on some data point; the units are
read from the first data point (an `AttributeError` when it lacks the
property).  Also returns `property_idx` as (id, name) pairs in insertion
order. -/
def buildScalarColumns (dps : List CKDataPoint) (dp0 : CKDataPoint)
    (common : List String) :
    Except ConvErr (List OutColumn × List (String × String)) :=
  datagroup_properties.foldlM
    (fun (acc : List OutColumn × List (String × String)) prop_name =>
      if prop_name ∉ common ∧ dps.any (fun dp => truthyQ (getattrQ dp prop_name)) then
        match getattrQ dp0 prop_name with
        | none => .error (.attributeError "NoneType has no attribute units")
        | some q =>
          let idx := "x" ++ toString (acc.2.length + 1)
          .ok (acc.1 ++ [⟨idx, prop_name, q.units, propLabel prop_name⟩],
               acc.2 ++ [(idx, prop_name)])
      else .ok acc)
    ([], [])

/-- The species-column loop of the exporter, used when the composition is not
common: one column per species of the first data point. -/
def buildSpeciesColumns (dp0 : CKDataPoint)
    (start : List OutColumn × List (String × String)) :
    List OutColumn × List (String × String) :=
  dp0.composition.foldl
    (fun (acc : List OutColumn × List (String × String)) species =>
      let idx := "x" ++ toString (acc.2.length + 1)
      (acc.1 ++
         [⟨idx, "composition", dp0.composition_type, "[" ++ species.speciesName ++ "]"⟩],
       acc.2 ++ [(idx, species.speciesName)]))
    start

/-- The value a data point contributes for one allocated column.  For the four
tracked properties this is `getattr(dp, ...).magnitude` (an `AttributeError`
when the point lacks the property).  For a species column it is the species
amount of the point (modelled from the spec: attribute access for species
names is resolved by `chemked.py`, which is not among the sources; the spec
emits per-point species amounts). -/
def rowValue (dp : CKDataPoint) (pname : String) : Except ConvErr ℚ :=
  if pname ∈ datagroup_properties then
    match getattrQ dp pname with
    | some q => .ok q.mag
    | none => .error (.attributeError "NoneType has no attribute magnitude")
  else
    match dp.composition.find? (fun s => s.speciesName = pname) with
    | some s => .ok s.amount
    | none => .error (.attributeError pname)

/-- The row-emission loop of the exporter: one row per data point, one (column
id, magnitude) entry per allocated column, in allocation order. -/
def buildRows (dps : List CKDataPoint) (property_idx : List (String × String)) :
    Except ConvErr (List (List (String × ℚ))) :=
  dps.mapM (fun dp => property_idx.mapM (fun iv => do
    let v ← rowValue dp iv.2
    .ok (iv.1, v)))

/-- The message of the `NotImplementedError` raised for a volume history on a
multi-point record. -/
def vhNotSupportedMsg : String :=
  "Error: ReSpecTh files do not support multiple datapoints with a volume history."

/-- The second dataGroup emitted for a volume history, given the number of
already-allocated columns. -/
def volumeHistoryDataGroup (vh : VolumeHistoryCK) (nAllocated : Nat) : OutDataGroup :=
  let time_idx := "x" ++ toString (nAllocated + 1)
  let volume_idx := "x" ++ toString (nAllocated + 2)
  { id := "dg1",
    columns := [⟨time_idx, "time", vh.timeUnits, "t"⟩,
                ⟨volume_idx, "volume", vh.volumeUnits, "V"⟩],
    rows := vh.values.map (fun tv => [(time_idx, tv.1), (volume_idx, tv.2)]) }

/-- Model of `convert_to_ReSpecTh` (file output mechanics elided).  The
citation string is built from the loaded reference with missing optional
fields rendered empty (the loaded reference object lives in `chemked.py`,
which is not among the sources). -/
def convert_to_ReSpecTh (c : CKRecord) : Except ConvErr OutDoc :=
  if c.experiment_type ≠ "ignition delay" then
    Except.error (ConvErr.notImplemented "Only ignition delay type supported for conversion.")
  else
    let citation :=
      ((c.reference.authors.getD []).foldl (fun s a => s ++ a.name ++ ", ") "") ++
      c.reference.journal.getD "" ++ " (" ++
      (c.reference.year.elim "" toString) ++ ") " ++
      (c.reference.volume.elim "" toString) ++ ":" ++ c.reference.pages.getD "" ++ ". " ++
      c.reference.detail.getD ""
    match c.datapoints.head? with
    | none => Except.error (ConvErr.keyError "list index out of range")
    | some dp0 =>
      let composition := dp0.composition
      let composition_type := dp0.composition_type
      let compositionCommon := c.datapoints.all (fun dp => dp.composition = composition)
      let common : List String := if compositionCommon then ["composition"] else []
      let commonComposition :=
        if compositionCommon then some (composition_type, composition) else none
      -- If multiple datapoints present, then find any common properties.  (The
      -- source comment at this point claims ignition delay cannot be common,
      -- but the loop ranges over all four datagroup_properties, ignition delay
      -- included.)
      let commonPair :=
        if c.datapoints.length > 1 then
          let cs := detectCommonScalars c.datapoints dp0
          (common ++ cs.1, cs.2)
        else (common, ([] : List OutCommonScalar))
      buildScalarColumns c.datapoints dp0 commonPair.1 >>= fun colsIdx0 =>
      let colsIdx :=
        if "composition" ∉ commonPair.1 then buildSpeciesColumns dp0 colsIdx0
        else colsIdx0
      buildRows c.datapoints colsIdx.2 >>= fun rows =>
      let dg1 : OutDataGroup := { id := "dg1", columns := colsIdx.1, rows := rows }
      (if c.datapoints.length > 1 ∧ c.datapoints.any (fun dp => dp.volume_history.isSome) then
        Except.error (ConvErr.notImplemented vhNotSupportedMsg)
      else
        match dp0.volume_history with
        | some vh => Except.ok [dg1, volumeHistoryDataGroup vh colsIdx.2.length]
        | none => Except.ok [dg1]) >>= fun dataGroups =>
      let ignTarget :=
        if dp0.ignition_type.target = "pressure" then "P"
        else if dp0.ignition_type.target = "temperature" then "T"
        else dp0.ignition_type.target
      Except.ok { fileAuthorText := c.file_author,
                  experimentTypeText := "Ignition delay measurement",
                  bibPreferredKey := citation, bibDoi := c.reference.doi,
                  apparatusKind := c.apparatus_kind,
                  commonComposition, commonScalars := commonPair.2, dataGroups,
                  ignitionTarget := ignTarget, ignitionType := dp0.ignition_type.typ }

/-- The composition `export(import(doc))` studied by the round-trip property: it
reads the document in, loads the written record through the ChemKED model,
and exports it. -/
def importThenExport (resolve : String → LookupOutcome) (xmlBasename : String)
    (doc : RSDoc) : Except ConvErr OutDoc := do
  let r ← convert_ReSpecTh resolve xmlBasename "" "" doc
  let ck ← toChemKED r
  convert_to_ReSpecTh ck

/-! ## Reading functions used to state the claims -/

/-- The value a source dataGroup row assigns to a tracked property: each child
is resolved through the column declarations (last declaration of an id wins)
and later children overwrite earlier ones, with the Torr spelling
normalized — the dictionary-overwrite semantics of the importer. -/
def rowValueFor (props : List DGProp) (row : List (String × ℚ)) (prop_name : String) :
    Option Quantity :=
  row.foldl
    (fun acc val =>
      match (props.reverse).find? (fun p => p.id = val.1) with
      | some p =>
        if dashName p.name = dashName prop_name then some ⟨val.2, normalizeTorr p.units⟩
        else acc
      | none => acc)
    none

/-- The scalar value the common-properties block of a source document assigns
to a property name (later property elements overwrite earlier ones, Torr
normalized). -/
def commonPropValueFor (elems : List RSPropElem) (prop_name : String) : Option Quantity :=
  elems.foldl
    (fun acc e =>
      if e.name = prop_name then some ⟨e.value, normalizeTorr e.units⟩ else acc)
    none

/-- The effective value of a tracked property for a source document data
point: the point's own row value when it has one, else the record-level
common value. -/
def docPointValue (commonElems : List RSPropElem) (props : List DGProp)
    (row : List (String × ℚ)) (prop_name : String) : Option Quantity :=
  match rowValueFor props row prop_name with
  | some q => some q
  | none => commonPropValueFor commonElems prop_name

/-- The value an exported document assigns to a tracked property of its
(single) data point: the entry of the first row of the first dataGroup under
the column declared for that property. -/
def outPointValue (out : OutDoc) (prop_name : String) : Option Quantity := do
  let dg ← out.dataGroups.head?
  let col ← dg.columns.find? (fun c => c.name = prop_name)
  let row ← dg.rows.head?
  let v ← (row.reverse.find? (fun x => x.1 = col.id)).map (·.2)
  some ⟨v, col.units⟩

/-- The canonical spelling of an ignition target attribute: trailing
semicolons stripped, uppercased, and the OHEX and CHEX spellings replaced —
the normalization `get_ignition_type` applies before its P and T mappings. -/
def normTargetName (t : String) : String :=
  let u := upperStr (rstripChar t ';')
  if u = "OHEX" then "OH*" else if u = "CHEX" then "CH*" else u

/-! ## Concrete inputs used by the counterexamples and witnesses -/

/-- A resolver standing for an unreachable network. -/
def offlineResolve : String → LookupOutcome := fun _ => .netError

/-- A source document whose single data point defines its own temperature
(1000 K) while the common properties also define a temperature (300 K). -/
def overlapDoc : RSDoc := {
  fileAuthor := "Some Person",
  preferredKeyAttr := some "Someone, J Phys 1 (2000).",
  experimentType := "Ignition delay measurement",
  apparatusKind := "shock tube",
  commonProps := [
    { name := "initial composition",
      components := [
        { preferredKey := "H2", amount := 2, amountUnits := "mole fraction" },
        { preferredKey := "O2", amount := 1, amountUnits := "mole fraction" }] },
    { name := "temperature", units := "K", value := 300 }],
  ignitionTargetAttr := "P",
  ignitionTypeAttr := "max",
  dataGroups := [
    { props := [⟨"x1", "temperature", "K"⟩, ⟨"x2", "ignition delay", "s"⟩],
      rows := [[("x1", 1000), ("x2", 1)]] }] }

/-- A source document with one data point, one dataGroup, no DOI, and no
overlap between its common properties and its dataGroup columns. -/
def cleanDoc : RSDoc := {
  fileAuthor := "Some Person",
  preferredKeyAttr := some "Someone, J Phys 1 (2000).",
  experimentType := "Ignition delay measurement",
  apparatusKind := "shock tube",
  commonProps := [
    { name := "initial composition",
      components := [
        { preferredKey := "H2", amount := 2, amountUnits := "mole fraction" }] },
    { name := "pressure", units := "atm", value := 2 }],
  ignitionTargetAttr := "OHEX",
  ignitionTypeAttr := "d/dt max",
  dataGroups := [
    { props := [⟨"x1", "temperature", "K"⟩, ⟨"x2", "ignition delay", "us"⟩],
      rows := [[("x1", 1000), ("x2", 42)]] }] }

/-- A ChemKED record with two data points of which exactly one carries a
volume history. -/
def oneHistoryRecord : CKRecord := {
  file_author := "Some Person",
  experiment_type := "ignition delay",
  apparatus_kind := "rapid compression machine",
  reference := { detail := some "Someone." },
  datapoints := [
    { temperature := some ⟨1000, "K"⟩, ignition_delay := some ⟨1, "s"⟩,
      composition := [⟨"H2", none, 2⟩], composition_type := "mole fraction",
      ignition_type := ⟨"pressure", "max"⟩,
      volume_history := some ⟨"s", "cm**3", [(0, 5), (1, 4)]⟩ },
    { temperature := some ⟨1200, "K"⟩, ignition_delay := some ⟨1, "s"⟩,
      composition := [⟨"H2", none, 2⟩], composition_type := "mole fraction",
      ignition_type := ⟨"pressure", "max"⟩ }] }

/-- A ChemKED record with two data points that share the composition and the
ignition delay value but differ in temperature. -/
def sharedDelayRecord : CKRecord := {
  file_author := "Some Person",
  experiment_type := "ignition delay",
  apparatus_kind := "shock tube",
  reference := { detail := some "Someone." },
  datapoints := [
    { temperature := some ⟨1000, "K"⟩, ignition_delay := some ⟨1, "s"⟩,
      composition := [⟨"H2", none, 2⟩], composition_type := "mole fraction",
      ignition_type := ⟨"pressure", "max"⟩ },
    { temperature := some ⟨1200, "K"⟩, ignition_delay := some ⟨1, "s"⟩,
      composition := [⟨"H2", none, 2⟩], composition_type := "mole fraction",
      ignition_type := ⟨"pressure", "max"⟩ }] }

/-- A ChemKED record with a single data point carrying a volume history. -/
def singleHistoryRecord : CKRecord := {
  file_author := "Some Person",
  experiment_type := "ignition delay",
  apparatus_kind := "rapid compression machine",
  reference := { detail := some "Someone." },
  datapoints := [
    { temperature := some ⟨1000, "K"⟩, ignition_delay := some ⟨1, "us"⟩,
      composition := [⟨"H2", none, 2⟩], composition_type := "mole fraction",
      ignition_type := ⟨"pressure", "max"⟩,
      volume_history := some ⟨"s", "cm**3", [(0, 5), (1, 4)]⟩ }] }

/-- An initial composition whose first component carries an empty units
attribute and whose second is in mole fraction. -/
def falsyUnitsComponents : List RSComponent :=
  [{ preferredKey := "H2", amount := 1, amountUnits := "" },
   { preferredKey := "O2", amount := 2, amountUnits := "mole fraction" }]

/-! ## Shared lemmas -/

theorem exceptBind_ok {ε α β : Type} {e : Except ε α} {f : α → Except ε β} {b : β}
    (h : e >>= f = Except.ok b) : ∃ a, e = Except.ok a ∧ f a = Except.ok b := by
  cases e with
  | ok a => exact ⟨a, rfl, h⟩
  | error err =>
    simp only [Bind.bind, Except.bind] at h
    exact absurd h (by simp)

theorem exceptBind_ok_eq {ε α β : Type} (a : α) (f : α → Except ε β) :
    (Except.ok a >>= f) = f a := rfl

theorem listForM_ok {α : Type} {l : List α} {f : α → Except ConvErr Unit}
    (h : l.forM f = Except.ok ()) : ∀ x ∈ l, f x = Except.ok () := by
  induction l with
  | nil => intro x hx; cases hx
  | cons a as ih =>
    intro x hx
    have h2 : (f a >>= fun _ => as.forM f) = Except.ok () := h
    obtain ⟨u, hu, hrest⟩ := exceptBind_ok h2
    rw [List.mem_cons] at hx
    rcases hx with rfl | hx
    · cases u; exact hu
    · exact ih hrest x hx

theorem parseCompositionLoop_ok_units {u : String} (hu : u ≠ "") :
    ∀ (cs : List RSComponent) (acc es : List SpeciesEntry) (ct : Option String),
      parseCompositionLoop cs acc (some u) = .ok (es, ct) →
      ct = some u ∧ ∀ c ∈ cs, c.amountUnits = u := by
  intro cs
  induction cs with
  | nil =>
    intro acc es ct h
    simp only [parseCompositionLoop, Except.ok.injEq, Prod.mk.injEq] at h
    exact ⟨h.2.symm, by simp⟩
  | cons c rest ih =>
    intro acc es ct h
    simp only [parseCompositionLoop] at h
    rw [show pyFalsyStr (some u) = false from by simp [pyFalsyStr, hu]] at h
    simp only [Bool.false_eq_true, if_false] at h
    by_cases hc : (some u : Option String) = some c.amountUnits
    · rw [if_pos hc] at h
      have hc2 : c.amountUnits = u := (Option.some.inj hc).symm
      obtain ⟨h1, h2⟩ := ih _ es ct h
      refine ⟨h1, ?_⟩
      intro x hx
      rw [List.mem_cons] at hx
      rcases hx with rfl | hx
      · exact hc2
      · exact h2 x hx
    · rw [if_neg hc] at h
      exact absurd h (by simp)

theorem parseCompositionLoop_mixed {u : String} (hu : u ≠ "") :
    ∀ (cs : List RSComponent) (acc : List SpeciesEntry),
      (∃ c ∈ cs, c.amountUnits ≠ u) →
      parseCompositionLoop cs acc (some u) =
        .error (.keyword "inconsistent initial composition units") := by
  intro cs
  induction cs with
  | nil => intro acc h; simp at h
  | cons c rest ih =>
    intro acc h
    obtain ⟨x, hx, hxu⟩ := h
    simp only [parseCompositionLoop]
    rw [show pyFalsyStr (some u) = false from by simp [pyFalsyStr, hu]]
    simp only [Bool.false_eq_true, if_false]
    by_cases hc : (some u : Option String) = some c.amountUnits
    · rw [if_pos hc]
      have hc2 : c.amountUnits = u := (Option.some.inj hc).symm
      rw [List.mem_cons] at hx
      rcases hx with rfl | hx
      · exact absurd hc2 hxu
      · exact ih _ ⟨x, hx, hxu⟩
    · rw [if_neg hc]

theorem parseCompositionLoop_uniform {u : String} (hu : u ≠ "") :
    ∀ (cs : List RSComponent) (acc : List SpeciesEntry),
      (∀ c ∈ cs, c.amountUnits = u) →
      parseCompositionLoop cs acc (some u) =
        .ok (acc ++ cs.map (fun c => ⟨c.preferredKey, c.inchi, c.amount⟩), some u) := by
  intro cs
  induction cs with
  | nil => intro acc _; simp [parseCompositionLoop]
  | cons c rest ih =>
    intro acc hall
    have hcu : c.amountUnits = u := hall c (by simp)
    simp only [parseCompositionLoop]
    rw [show pyFalsyStr (some u) = false from by simp [pyFalsyStr, hu]]
    simp only [Bool.false_eq_true, if_false]
    rw [if_pos (by rw [hcu])]
    rw [ih _ (fun z hz => hall z (List.mem_cons_of_mem _ hz))]
    simp

theorem parseCompositionLoop_cons_none (c : RSComponent) (rest : List RSComponent) :
    parseCompositionLoop (c :: rest) [] none =
      parseCompositionLoop rest [⟨c.preferredKey, c.inchi, c.amount⟩]
        (some c.amountUnits) := rfl

theorem parseComposition_bind (cs : List RSComponent) :
    parseComposition cs =
      parseCompositionLoop cs [] none >>= fun p =>
        match p.2 with
        | some k =>
          if k = "mole fraction" ∨ k = "mass fraction" then
            Except.ok ⟨p.1, k⟩
          else Except.error (ConvErr.assertionFailed "composition type")
        | none => Except.error (ConvErr.assertionFailed "composition type") := rfl

end PyKED

namespace PyKED

/-! ## Claim C6 -/

/-- C6 counterexample: importing a composition whose first component carries
an empty units attribute and whose second is in mole fraction succeeds (no
inconsistent-units error) even though the components do not share one unit,
and the first entry's unit differs from the kind that tags the result. -/
theorem c6_falsy_units_accepted :
    parseComposition falsyUnitsComponents =
      .ok ⟨[⟨"H2", none, 1⟩, ⟨"O2", none, 2⟩], "mole fraction"⟩ ∧
    falsyUnitsComponents.map (·.amountUnits) = ["", "mole fraction"] ∧
    (falsyUnitsComponents.map (·.amountUnits)).head? ≠ some "mole fraction" := by
  refine ⟨by decide, by decide, by decide⟩

/-- C6 (amended): restricted to components whose amount units are non-empty
strings (the source treats an empty units attribute as unset), an initial
composition fails with the inconsistent-units keyword error exactly when two
of its components carry different amount units, and when import succeeds
every entry of the composition carries the kind that tags the composition. -/
theorem c6_composition_kind_consistency (cs : List RSComponent)
    (hne : ∀ c ∈ cs, c.amountUnits ≠ "") :
    (∀ comp, parseComposition cs = .ok comp → ∀ c ∈ cs, c.amountUnits = comp.kind) ∧
    (parseComposition cs = .error (.keyword "inconsistent initial composition units") ↔
      ∃ c ∈ cs, ∃ d ∈ cs, c.amountUnits ≠ d.amountUnits) := by
  cases cs with
  | nil =>
    constructor
    · intro comp h x hx; cases hx
    · constructor
      · intro h; exact absurd h (by decide)
      · intro h; simp at h
  | cons c rest =>
    have hcu : c.amountUnits ≠ "" := hne c (by simp)
    constructor
    · intro comp h x hx
      rw [parseComposition_bind] at h
      obtain ⟨p, hp, hk⟩ := exceptBind_ok h
      rw [parseCompositionLoop_cons_none] at hp
      obtain ⟨es, ct⟩ := p
      obtain ⟨hct, hall⟩ := parseCompositionLoop_ok_units hcu rest _ es ct hp
      subst hct
      dsimp only at hk
      split at hk
      · cases hk
        rw [List.mem_cons] at hx
        rcases hx with rfl | hx
        · rfl
        · exact hall x hx
      · exact absurd hk (by simp)
    · constructor
      · intro herr
        by_cases hz : ∃ z ∈ rest, z.amountUnits ≠ c.amountUnits
        · obtain ⟨z, hzm, hzc⟩ := hz
          exact ⟨z, List.mem_cons_of_mem _ hzm, c, List.mem_cons_self _ _, hzc⟩
        · push_neg at hz
          exfalso
          rw [parseComposition_bind, parseCompositionLoop_cons_none,
            parseCompositionLoop_uniform hcu rest _ hz, exceptBind_ok_eq] at herr
          dsimp only at herr
          split at herr
          · exact absurd herr (by simp)
          · exact absurd herr (by simp)
      · intro hmix
        obtain ⟨x, hx, y, hy, hxy⟩ := hmix
        have hwit : ∃ z ∈ rest, z.amountUnits ≠ c.amountUnits := by
          rw [List.mem_cons] at hx hy
          rcases hx with rfl | hx
          · rcases hy with rfl | hy
            · exact absurd rfl hxy
            · exact ⟨y, hy, fun hc => hxy hc.symm⟩
          · rcases hy with rfl | hy
            · exact ⟨x, hx, hxy⟩
            · by_cases hxc : x.amountUnits = y.amountUnits
              · exact absurd hxc hxy
              · by_cases hxc2 : x.amountUnits = c.amountUnits
                · exact ⟨y, hy, fun hc => hxc (hxc2.trans hc.symm)⟩
                · exact ⟨x, hx, hxc2⟩
        rw [parseComposition_bind, parseCompositionLoop_cons_none,
          parseCompositionLoop_mixed hcu rest _ hwit]
        rfl

/-- C6 witness: the amended consistency statement applied to a concrete
mixed mole-fraction and mass-fraction composition. -/
theorem c6_composition_kind_consistency_witness :
    parseComposition
        [{ preferredKey := "H2", amount := 1, amountUnits := "mole fraction" },
         { preferredKey := "O2", amount := 2, amountUnits := "mass fraction" }] =
      .error (.keyword "inconsistent initial composition units") :=
  (c6_composition_kind_consistency
      [{ preferredKey := "H2", amount := 1, amountUnits := "mole fraction" },
       { preferredKey := "O2", amount := 2, amountUnits := "mass fraction" }]
      (by decide)).2.mpr
    (by
      refine ⟨{ preferredKey := "H2", inchi := none, amount := 1,
                amountUnits := "mole fraction" }, by simp,
              { preferredKey := "O2", inchi := none, amount := 2,
                amountUnits := "mass fraction" }, by simp, ?_⟩
      decide)

/-! ## Claim C7 -/

/-- C7: the name matcher is a pure boolean-valued function that depends only
on the lowercased forms of its three arguments (case-insensitivity), and it
accepts Kyle E Niemeyer for (Kyle, Niemeyer), accepts C-J Sung for
(Chih-Jen, Sung), and rejects John Smith for (Kyle, Niemeyer). -/
theorem c7_name_matcher (g g2 f f2 q q2 : String)
    (hg : lowerStr g = lowerStr g2) (hf : lowerStr f = lowerStr f2)
    (hq : lowerStr q = lowerStr q2) :
    compare_name g f q = compare_name g2 f2 q2 ∧
    compare_name "Kyle" "Niemeyer" "Kyle E Niemeyer" = some true ∧
    compare_name "Chih-Jen" "Sung" "C-J Sung" = some true ∧
    compare_name "Kyle" "Niemeyer" "John Smith" = some false := by
  refine ⟨?_, by decide, by decide, by decide⟩
  unfold compare_name
  rw [hg, hf, hq]

/-- C7 witness: the matcher theorem applied at concrete inputs of mixed
case. -/
theorem c7_name_matcher_witness :
    compare_name "KYLE" "NIEMEYER" "kyle e niemeyer" =
      compare_name "kyle" "niemeyer" "KYLE E NIEMEYER" ∧
    compare_name "Kyle" "Niemeyer" "Kyle E Niemeyer" = some true ∧
    compare_name "Chih-Jen" "Sung" "C-J Sung" = some true ∧
    compare_name "Kyle" "Niemeyer" "John Smith" = some false :=
  c7_name_matcher "KYLE" "kyle" "NIEMEYER" "niemeyer" "kyle e niemeyer"
    "KYLE E NIEMEYER" (by decide) (by decide) (by decide)

/-! ## Claim C5 -/

/-- C5: for a field flagged for quantity validation (with validation active),
the quantity rule records an error exactly when the quantity's unit is
dimensionally incompatible with the field's fixed semantic unit or the
quantity's value is not strictly greater than zero; an ignition-delay quantity
of 0 second produces an error and one of 1.0 second produces none. -/
theorem c5_quantity_validation (field : String) (q : Quantity)
    (uv uf : UnitDef) (fu : String)
    (hfu : property_units field = some fu)
    (hv : unit_registry q.units = some uv)
    (hf : unit_registry fu = some uf) :
    (∃ errs, validate_isvalid_quantity false true field q = some errs ∧
      (errs ≠ [] ↔ (uv.dim ≠ uf.dim ∨ q.mag * uv.scale ≤ 0))) ∧
    validate_isvalid_quantity false true "ignition-delay" ⟨0, "second"⟩ =
      some [("ignition-delay", "value must be greater than 0.0 second")] ∧
    validate_isvalid_quantity false true "ignition-delay" ⟨1, "second"⟩ = some [] := by
  refine ⟨?_, by with_unfolding_all decide, by with_unfolding_all decide⟩
  simp only [validate_isvalid_quantity, hfu, hv, hf, Bool.not_false, Bool.and_self,
    if_true]
  by_cases hdim : uv.dim = uf.dim
  · rw [if_pos hdim]
    by_cases hle : q.mag * uv.scale ≤ 0 * uf.scale
    · rw [if_pos hle]
      rw [zero_mul] at hle
      exact ⟨_, rfl, by simp [hle]⟩
    · rw [if_neg hle]
      rw [zero_mul] at hle
      exact ⟨[], rfl, by simp [hdim, hle]⟩
  · rw [if_neg hdim]
    exact ⟨_, rfl, by simp [hdim]⟩

/-- C5 witness: the quantity-rule characterization applied at the
ignition-delay field with a one-second quantity. -/
theorem c5_quantity_validation_witness :
    (∃ errs,
      validate_isvalid_quantity false true "ignition-delay" ⟨1, "second"⟩ = some errs ∧
      (errs ≠ [] ↔ (Dim.time ≠ Dim.time ∨ (1 : ℚ) * 1 ≤ 0))) ∧
    validate_isvalid_quantity false true "ignition-delay" ⟨0, "second"⟩ =
      some [("ignition-delay", "value must be greater than 0.0 second")] ∧
    validate_isvalid_quantity false true "ignition-delay" ⟨1, "second"⟩ = some [] :=
  c5_quantity_validation "ignition-delay" ⟨1, "second"⟩ ⟨Dim.time, 1⟩ ⟨Dim.time, 1⟩
    "second" (by decide) (by decide) (by decide)

/-! ## Claim C8 -/

/-- C8: for a validator whose captured skip flag is set, all four semantic
rules return no errors regardless of their inputs, the two rules that consult
an external resolver produce a result independent of that resolver (no lookup
can be observed), and the module-level disable and enable functions each emit
one warning while toggling the flag. -/
theorem c8_skip_flag_short_circuits (v : OurValidator)
    (hskip : v.skip_validation = true)
    (flag1 flag2 flag3 flag4 : Bool) (field u : String) (q : Quantity) (ref : RefValue)
    (resolve resolve2 : String → LookupOutcome) (av : AuthorValue)
    (search search2 : String → OrcidOutcome) (s : ModuleState) :
    validate_isvalid_unit v.skip_validation flag1 field u = some [] ∧
    validate_isvalid_quantity v.skip_validation flag2 field q = some [] ∧
    validate_isvalid_reference v.skip_validation flag3 field ref resolve = some [] ∧
    validate_isvalid_reference v.skip_validation flag3 field ref resolve =
      validate_isvalid_reference v.skip_validation flag3 field ref resolve2 ∧
    validate_isvalid_orcid v.skip_validation flag4 field av search = some [] ∧
    validate_isvalid_orcid v.skip_validation flag4 field av search =
      validate_isvalid_orcid v.skip_validation flag4 field av search2 ∧
    (disable_validation s).warnings = s.warnings ++ ["validation disabled."] ∧
    (disable_validation s).mod_skip_validation = true ∧
    (enable_validation s).warnings = s.warnings ++ ["validation enabled."] ∧
    (enable_validation s).mod_skip_validation = false := by
  rw [hskip]
  have href : ∀ (res : String → LookupOutcome),
      validate_isvalid_reference true flag3 field ref res = some [] := by
    intro res
    cases href2 : ref.doi with
    | none => simp [validate_isvalid_reference, href2]
    | some d => simp [validate_isvalid_reference, href2]
  have horc : ∀ (res : String → OrcidOutcome),
      validate_isvalid_orcid true flag4 field av res = some [] := by
    intro res
    cases horc2 : av.orcid with
    | none => simp [validate_isvalid_orcid, horc2]
    | some d => simp [validate_isvalid_orcid, horc2]
  refine ⟨by simp [validate_isvalid_unit], by simp [validate_isvalid_quantity],
    href resolve, (href resolve).trans (href resolve2).symm,
    horc search, (horc search).trans (horc search2).symm, rfl, rfl, rfl, rfl⟩

/-- C8 witness: the short-circuit statement applied to a validator built with
the skip flag set, a reference holding an unresolvable DOI, and resolvers that
would fail if consulted. -/
theorem c8_skip_flag_short_circuits_witness :
    validate_isvalid_unit (OurValidator.init ⟨true, []⟩).skip_validation true
      "temperature" "pascal" = some [] ∧
    validate_isvalid_quantity (OurValidator.init ⟨true, []⟩).skip_validation true
      "ignition-delay" ⟨0, "second"⟩ = some [] ∧
    validate_isvalid_reference (OurValidator.init ⟨true, []⟩).skip_validation true
      "reference" { doi := some "10.1000/bogus" } (fun _ => .notFound) = some [] ∧
    validate_isvalid_reference (OurValidator.init ⟨true, []⟩).skip_validation true
      "reference" { doi := some "10.1000/bogus" } (fun _ => .notFound) =
      validate_isvalid_reference (OurValidator.init ⟨true, []⟩).skip_validation true
        "reference" { doi := some "10.1000/bogus" } (fun _ => .netError) ∧
    validate_isvalid_orcid (OurValidator.init ⟨true, []⟩).skip_validation true
      "author" { name := "Kyle Niemeyer", orcid := some "0000-0000-0000-0000" }
      (fun _ => .notFound) = some [] ∧
    validate_isvalid_orcid (OurValidator.init ⟨true, []⟩).skip_validation true
      "author" { name := "Kyle Niemeyer", orcid := some "0000-0000-0000-0000" }
      (fun _ => .notFound) =
      validate_isvalid_orcid (OurValidator.init ⟨true, []⟩).skip_validation true
        "author" { name := "Kyle Niemeyer", orcid := some "0000-0000-0000-0000" }
        (fun _ => .netError) ∧
    (disable_validation ⟨false, []⟩).warnings = [] ++ ["validation disabled."] ∧
    (disable_validation ⟨false, []⟩).mod_skip_validation = true ∧
    (enable_validation ⟨false, []⟩).warnings = [] ++ ["validation enabled."] ∧
    (enable_validation ⟨false, []⟩).mod_skip_validation = false :=
  c8_skip_flag_short_circuits (OurValidator.init ⟨true, []⟩) rfl true true true true
    "temperature" "pascal" ⟨0, "second"⟩ { doi := some "10.1000/bogus" }
    (fun _ => .notFound) (fun _ => .netError)
    { name := "Kyle Niemeyer", orcid := some "0000-0000-0000-0000" }
    (fun _ => .notFound) (fun _ => .netError) ⟨false, []⟩

/-! ## Destructuring a successful import -/

theorem convert_ReSpecTh_ok_parts {resolve : String → LookupOutcome} {nm fa fao : String}
    {doc : RSDoc} {r : ImportedRecord}
    (h : convert_ReSpecTh resolve nm fa fao doc = .ok r) :
    ∃ cp ign dps,
      get_common_properties doc.commonProps = .ok cp ∧
      get_ignition_type doc.ignitionTargetAttr doc.ignitionTypeAttr = .ok ign ∧
      get_datapoints doc.apparatusKind doc.dataGroups = .ok dps ∧
      doc.experimentType = "Ignition delay measurement" ∧
      (doc.apparatusKind = "shock tube" ∨ doc.apparatusKind = "rapid compression machine") ∧
      r.experimentType = "ignition delay" ∧
      r.apparatusKind = doc.apparatusKind ∧
      r.commonIgnition = ign ∧
      r.common = { cp with compressionTime := none } ∧
      r.datapoints = dps.map (broadcastCommon cp ign) ∧
      (∀ dp ∈ r.datapoints, validateDataPoint dp = .ok ()) := by
  unfold convert_ReSpecTh at h
  split at h
  · exact absurd h (by simp)
  obtain ⟨ref0, href, h⟩ := exceptBind_ok h
  try dsimp only at h
  obtain ⟨ek, hek, h⟩ := exceptBind_ok h
  obtain ⟨expType, appKind⟩ := ek
  try dsimp only at h
  obtain ⟨cp, hcp, h⟩ := exceptBind_ok h
  try dsimp only at h
  obtain ⟨ign, hign, h⟩ := exceptBind_ok h
  try dsimp only at h
  obtain ⟨dps, hdps, h⟩ := exceptBind_ok h
  try dsimp only at h
  have hexp : doc.experimentType = "Ignition delay measurement" ∧
      (doc.apparatusKind = "shock tube" ∨ doc.apparatusKind = "rapid compression machine") ∧
      expType = "ignition delay" ∧ appKind = doc.apparatusKind := by
    unfold get_experiment_kind at hek
    split at hek
    · split at hek
      · simp only [Except.ok.injEq, Prod.mk.injEq] at hek
        exact ⟨by assumption, by assumption, hek.1.symm, hek.2.symm⟩
      · exact absurd hek (by simp)
    · exact absurd hek (by simp)
  obtain ⟨hexp1, hexp2, hexp3, hexp4⟩ := hexp
  split at h
  · exact absurd h (by simp)
  split at h
  · exact absurd h (by simp)
  obtain ⟨u, hforM, h⟩ := exceptBind_ok h
  cases u
  simp only [Except.ok.injEq] at h
  subst h
  exact ⟨cp, ign, dps, hcp, hign, hdps, hexp1, hexp2, hexp3.symm ▸ rfl,
    hexp4.symm ▸ rfl, rfl, rfl, rfl, listForM_ok hforM⟩

/-! ## Claim C1 -/

/-- C1 counterexample: for a source document whose single data point defines
its own temperature (1000 K) while the common properties also define one
(300 K), the imported record's data point carries the common value 300 K —
the broadcast step overwrote the value the point already defined. -/
theorem c1_broadcast_overwrites :
    (convert_ReSpecTh offlineResolve "overlap.xml" "" "" overlapDoc).map
        (fun r => r.datapoints.map (·.temperature)) = .ok [some ⟨300, "K"⟩] ∧
    (get_datapoints overlapDoc.apparatusKind overlapDoc.dataGroups).map
        (fun dps => dps.map (·.temperature)) = .ok [some ⟨1000, "K"⟩] ∧
    commonPropValueFor overlapDoc.commonProps "temperature" = some ⟨300, "K"⟩ :=
  ⟨by with_unfolding_all decide, by with_unfolding_all decide,
   by with_unfolding_all decide⟩

/-- C1 (amended): on a successful import, the broadcast step of
`convert_ReSpecTh` assigns the record-level common value to every data point
for every property the common-properties block defines — overwriting any value
the point defined itself — and the point keeps its own value exactly for the
properties with no common value (in particular its ignition delay and volume
history are always kept). -/
theorem c1_broadcast_common_wins (resolve : String → LookupOutcome)
    (nm fa fao : String) (doc : RSDoc) (cp : CommonProps) (dps : List DPDict)
    (hcp : get_common_properties doc.commonProps = .ok cp)
    (hdps : get_datapoints doc.apparatusKind doc.dataGroups = .ok dps)
    (hok : (convert_ReSpecTh resolve nm fa fao doc).isOk = true) :
    (convert_ReSpecTh resolve nm fa fao doc).map
        (fun r => r.datapoints.map (·.temperature)) =
      .ok (dps.map (fun dp =>
        if cp.temperature.isSome then cp.temperature else dp.temperature)) ∧
    (convert_ReSpecTh resolve nm fa fao doc).map
        (fun r => r.datapoints.map (·.pressure)) =
      .ok (dps.map (fun dp =>
        if cp.pressure.isSome then cp.pressure else dp.pressure)) ∧
    (convert_ReSpecTh resolve nm fa fao doc).map
        (fun r => r.datapoints.map (·.pressureRise)) =
      .ok (dps.map (fun dp =>
        if cp.pressureRise.isSome then cp.pressureRise else dp.pressureRise)) ∧
    (convert_ReSpecTh resolve nm fa fao doc).map
        (fun r => r.datapoints.map (·.compressionTime)) =
      .ok (dps.map (fun dp =>
        if cp.compressionTime.isSome then cp.compressionTime else dp.compressionTime)) ∧
    (convert_ReSpecTh resolve nm fa fao doc).map
        (fun r => r.datapoints.map (·.composition)) =
      .ok (dps.map (fun dp =>
        if cp.composition.isSome then cp.composition else dp.composition)) ∧
    (convert_ReSpecTh resolve nm fa fao doc).map
        (fun r => r.datapoints.map (·.ignitionDelay)) =
      .ok (dps.map (·.ignitionDelay)) ∧
    (convert_ReSpecTh resolve nm fa fao doc).map
        (fun r => r.datapoints.map (·.volumeHistory)) =
      .ok (dps.map (·.volumeHistory)) := by
  cases hc : convert_ReSpecTh resolve nm fa fao doc with
  | error e => rw [hc] at hok; exact absurd hok (by simp [Except.isOk, Except.toBool])
  | ok r =>
    obtain ⟨cp2, ign2, dps2, hcp2, hign2, hdps2, _, _, _, _, _, _, hdp2, _⟩ :=
      convert_ReSpecTh_ok_parts hc
    have hcpe : cp2 = cp := by rw [hcp] at hcp2; exact (Except.ok.inj hcp2).symm
    have hdpse : dps2 = dps := by rw [hdps] at hdps2; exact (Except.ok.inj hdps2).symm
    subst hcpe hdpse
    simp only [Except.map, hdp2, List.map_map]
    exact ⟨rfl, rfl, rfl, rfl, rfl, rfl, rfl⟩

/-- C1 witness: the amended broadcast statement applied to the overlapping
document, whose data point defines its own temperature while the common
properties define another. -/
theorem c1_broadcast_common_wins_witness :
    (convert_ReSpecTh offlineResolve "overlap.xml" "" "" overlapDoc).map
        (fun r => r.datapoints.map (·.temperature)) =
      .ok (([{ temperature := some ⟨1000, "K"⟩, ignitionDelay := some ⟨1, "s"⟩ }] :
            List DPDict).map
        (fun dp =>
          if ({ composition := some ⟨[⟨"H2", none, 2⟩, ⟨"O2", none, 1⟩], "mole fraction"⟩,
                temperature := some ⟨300, "K"⟩ } : CommonProps).temperature.isSome then
            ({ composition := some ⟨[⟨"H2", none, 2⟩, ⟨"O2", none, 1⟩], "mole fraction"⟩,
               temperature := some ⟨300, "K"⟩ } : CommonProps).temperature
          else dp.temperature)) :=
  (c1_broadcast_common_wins offlineResolve "overlap.xml" "" "" overlapDoc
    { composition := some ⟨[⟨"H2", none, 2⟩, ⟨"O2", none, 1⟩], "mole fraction"⟩,
      temperature := some ⟨300, "K"⟩ }
    [{ temperature := some ⟨1000, "K"⟩, ignitionDelay := some ⟨1, "s"⟩ }]
    (by with_unfolding_all decide) (by with_unfolding_all decide)
    (by with_unfolding_all decide)).1

/-! ## Success lemmas for the exporter loops -/

theorem foldColumns_ok {σ : Type} (f : σ → String → Except ConvErr σ)
    (good : String → Prop) (inv : σ → Prop)
    (hstep : ∀ acc p, good p → inv acc → ∃ acc2, f acc p = .ok acc2 ∧ inv acc2) :
    ∀ (names : List String) (acc : σ), (∀ p ∈ names, good p) → inv acc →
      ∃ ci, List.foldlM f acc names = .ok ci ∧ inv ci := by
  intro names
  induction names with
  | nil => intro acc _ hi; exact ⟨acc, rfl, hi⟩
  | cons p rest ih =>
    intro acc hg hi
    obtain ⟨a2, ha2, hi2⟩ := hstep acc p (hg p (by simp)) hi
    obtain ⟨ci, hci, hic⟩ := ih a2 (fun q hq => hg q (by simp [hq])) hi2
    refine ⟨ci, ?_, hic⟩
    rw [List.foldlM_cons, ha2]
    exact hci

theorem listMapM_ok {α β : Type} (f : α → Except ConvErr β) :
    ∀ (l : List α), (∀ x ∈ l, ∃ y, f x = .ok y) → ∃ ys, l.mapM f = .ok ys := by
  intro l
  induction l with
  | nil => exact fun _ => ⟨[], rfl⟩
  | cons a as ih =>
    intro h
    obtain ⟨y, hy⟩ := h a (by simp)
    obtain ⟨ys, hys⟩ := ih (fun x hx => h x (by simp [hx]))
    refine ⟨y :: ys, ?_⟩
    rw [List.mapM_cons, hy, hys]
    rfl

theorem buildScalarColumns_ok (dps : List CKDataPoint) (dp0 : CKDataPoint)
    (common : List String) (hdp0 : dp0 ∈ dps)
    (huni : ∀ p ∈ datagroup_properties,
      (∀ dp ∈ dps, (getattrQ dp p).isSome = true) ∨
      (∀ dp ∈ dps, getattrQ dp p = none)) :
    ∃ ci, buildScalarColumns dps dp0 common = .ok ci ∧
      ∀ pr ∈ ci.2, pr.2 ∈ datagroup_properties ∧
        ∀ dp ∈ dps, (getattrQ dp pr.2).isSome = true := by
  unfold buildScalarColumns
  refine foldColumns_ok _
    (fun p => p ∈ datagroup_properties)
    (fun (acc : List OutColumn × List (String × String)) =>
      ∀ pr ∈ acc.2, pr.2 ∈ datagroup_properties ∧
        ∀ dp ∈ dps, (getattrQ dp pr.2).isSome = true)
    ?_ datagroup_properties ([], []) (fun p hp => hp) (by simp)
  intro acc p hp hinv
  by_cases hcond : (p ∉ common ∧ dps.any (fun dp => truthyQ (getattrQ dp p)) = true)
  · have hsome : ∀ dp ∈ dps, (getattrQ dp p).isSome = true := by
      rcases huni p hp with h | h
      · exact h
      · exfalso
        rw [List.any_eq_true] at hcond
        obtain ⟨dp, hdp, htr⟩ := hcond.2
        rw [h dp hdp] at htr
        exact absurd htr (by simp [truthyQ])
    have h0 := hsome dp0 hdp0
    rw [Option.isSome_iff_exists] at h0
    obtain ⟨q, hq⟩ := h0
    rw [if_pos hcond, hq]
    refine ⟨_, rfl, ?_⟩
    intro pr hpr
    rw [List.mem_append] at hpr
    rcases hpr with hpr | hpr
    · exact hinv pr hpr
    · simp only [List.mem_singleton] at hpr
      subst hpr
      exact ⟨hp, hsome⟩
  · rw [if_neg hcond]
    exact ⟨acc, rfl, hinv⟩

theorem buildRows_ok (dps : List CKDataPoint) (property_idx : List (String × String))
    (hgood : ∀ pr ∈ property_idx, pr.2 ∈ datagroup_properties ∧
      ∀ dp ∈ dps, (getattrQ dp pr.2).isSome = true) :
    ∃ rows, buildRows dps property_idx = .ok rows := by
  unfold buildRows
  refine listMapM_ok _ dps ?_
  intro dp hdp
  refine listMapM_ok _ property_idx ?_
  intro pr hpr
  obtain ⟨hmem, hsome⟩ := hgood pr hpr
  have h0 := hsome dp hdp
  rw [Option.isSome_iff_exists] at h0
  obtain ⟨q, hq⟩ := h0
  refine ⟨(pr.1, q.mag), ?_⟩
  unfold rowValue
  rw [if_pos hmem, hq]
  rfl

/-! ## Claim C4 -/

/-- C4: evaluating the exporter on a record with two data points that share
their ignition delay value (1 us) but differ in temperature shows the
property named ignition delay emitted once as a record-level common property
and absent from the dataGroup columns — the common-property loop ranges over
all four dataGroup properties, ignition delay included, contradicting the
source's own comment that ignition delay cannot be common. -/
theorem c4_ignition_delay_emitted_common :
    (convert_to_ReSpecTh sharedDelayRecord).map (fun out => out.commonScalars) =
      .ok [⟨"ignition delay", "s", 1⟩] ∧
    (convert_to_ReSpecTh sharedDelayRecord).map
        (fun out => out.dataGroups.map (fun dg => dg.columns.map (·.name))) =
      .ok [["temperature"]] :=
  ⟨by with_unfolding_all decide, by with_unfolding_all decide⟩

/-! ## Characterization of the imported data points -/

theorem setDPField_temperature (d : DPDict) (f : String) (q : Quantity) :
    (setDPField d f q).temperature =
      (if f = "temperature" then some q else d.temperature) := by
  unfold setDPField
  by_cases h : f = "temperature"
  · subst h; simp
  · rw [if_neg h]
    split
    · rfl
    split
    · rfl
    split
    · rfl
    rfl

theorem setDPField_pressure (d : DPDict) (f : String) (q : Quantity) :
    (setDPField d f q).pressure =
      (if f = "pressure" then some q else d.pressure) := by
  unfold setDPField
  by_cases h : f = "pressure"
  · subst h; simp
  · rw [if_neg h]
    split
    · rfl
    split
    · rfl
    split
    · rfl
    rfl

theorem setDPField_ignitionDelay (d : DPDict) (f : String) (q : Quantity) :
    (setDPField d f q).ignitionDelay =
      (if f = "ignition-delay" then some q else d.ignitionDelay) := by
  unfold setDPField
  by_cases h : f = "ignition-delay"
  · subst h; simp
  · rw [if_neg h]
    split
    · rfl
    split
    · rfl
    split
    · rfl
    rfl

theorem setDPField_pressureRise (d : DPDict) (f : String) (q : Quantity) :
    (setDPField d f q).pressureRise =
      (if f = "pressure-rise" then some q else d.pressureRise) := by
  unfold setDPField
  by_cases h : f = "pressure-rise"
  · subst h; simp
  · rw [if_neg h]
    split
    · rfl
    split
    · rfl
    split
    · rfl
    rfl

theorem setDPField_rest (d : DPDict) (f : String) (q : Quantity) :
    (setDPField d f q).compressionTime = d.compressionTime ∧
    (setDPField d f q).composition = d.composition ∧
    (setDPField d f q).ignitionType = d.ignitionType ∧
    (setDPField d f q).volumeHistory = d.volumeHistory := by
  unfold setDPField
  split
  · exact ⟨rfl, rfl, rfl, rfl⟩
  · split
    · exact ⟨rfl, rfl, rfl, rfl⟩
    · split
      · exact ⟨rfl, rfl, rfl, rfl⟩
      · split
        · exact ⟨rfl, rfl, rfl, rfl⟩
        · exact ⟨rfl, rfl, rfl, rfl⟩

theorem buildDatapoint_fold (props : List DGProp) :
    ∀ (row : List (String × ℚ)) (d0 dp : DPDict),
      List.foldlM
        (fun dp val =>
          match (props.reverse).find? (fun p => p.id = val.1) with
          | none => Except.error (ConvErr.keyError val.1)
          | some p =>
            Except.ok (setDPField dp (dashName p.name) ⟨val.2, normalizeTorr p.units⟩))
        d0 row = .ok dp →
      (dp.temperature = row.foldl
        (fun acc val =>
          match (props.reverse).find? (fun p => p.id = val.1) with
          | some p =>
            if dashName p.name = dashName "temperature" then
              some ⟨val.2, normalizeTorr p.units⟩
            else acc
          | none => acc)
        d0.temperature) ∧
      (dp.pressure = row.foldl
        (fun acc val =>
          match (props.reverse).find? (fun p => p.id = val.1) with
          | some p =>
            if dashName p.name = dashName "pressure" then
              some ⟨val.2, normalizeTorr p.units⟩
            else acc
          | none => acc)
        d0.pressure) ∧
      (dp.ignitionDelay = row.foldl
        (fun acc val =>
          match (props.reverse).find? (fun p => p.id = val.1) with
          | some p =>
            if dashName p.name = dashName "ignition delay" then
              some ⟨val.2, normalizeTorr p.units⟩
            else acc
          | none => acc)
        d0.ignitionDelay) ∧
      (dp.pressureRise = row.foldl
        (fun acc val =>
          match (props.reverse).find? (fun p => p.id = val.1) with
          | some p =>
            if dashName p.name = dashName "pressure rise" then
              some ⟨val.2, normalizeTorr p.units⟩
            else acc
          | none => acc)
        d0.pressureRise) ∧
      dp.compressionTime = d0.compressionTime ∧
      dp.composition = d0.composition ∧
      dp.ignitionType = d0.ignitionType ∧
      dp.volumeHistory = d0.volumeHistory := by
  intro row
  induction row with
  | nil =>
    intro d0 dp h
    simp only [List.foldlM_nil, pure, Except.pure, Except.ok.injEq] at h
    subst h
    exact ⟨rfl, rfl, rfl, rfl, rfl, rfl, rfl, rfl⟩
  | cons val rest ih =>
    intro d0 dp h
    rw [List.foldlM_cons] at h
    cases hf : (props.reverse).find? (fun p => p.id = val.1) with
    | none =>
      rw [hf] at h
      exact absurd h (by simp [Bind.bind, Except.bind])
    | some p =>
      rw [hf] at h
      rw [exceptBind_ok_eq] at h
      have := ih _ dp h
      simp only [List.foldl_cons, hf]
      obtain ⟨e1, e2, e3, e4, e5, e6, e7, e8⟩ := this
      rw [setDPField_temperature] at e1
      rw [setDPField_pressure] at e2
      rw [setDPField_ignitionDelay] at e3
      rw [setDPField_pressureRise] at e4
      obtain ⟨r1, r2, r3, r4⟩ := setDPField_rest d0 (dashName p.name)
        ⟨val.2, normalizeTorr p.units⟩
      refine ⟨?_, ?_, ?_, ?_, e5.trans r1, e6.trans r2, e7.trans r3, e8.trans r4⟩
      · rw [e1]; rfl
      · rw [e2]; rfl
      · rw [e3]; rfl
      · rw [e4]; rfl

theorem buildDatapoint_fields {props : List DGProp} {row : List (String × ℚ)}
    {dp : DPDict} (h : buildDatapoint props row = .ok dp) :
    dp.temperature = rowValueFor props row "temperature" ∧
    dp.pressure = rowValueFor props row "pressure" ∧
    dp.ignitionDelay = rowValueFor props row "ignition delay" ∧
    dp.pressureRise = rowValueFor props row "pressure rise" ∧
    dp.compressionTime = none ∧ dp.composition = none ∧ dp.ignitionType = none ∧
    dp.volumeHistory = none := by
  unfold buildDatapoint at h
  have := buildDatapoint_fold props row {} dp h
  unfold rowValueFor
  exact this

theorem get_datapoints_single_row {kind : String} {dg : RSDataGroup}
    {row : List (String × ℚ)} {dps : List DPDict}
    (hrows : dg.rows = [row])
    (h : get_datapoints kind [dg] = .ok dps) :
    ∃ dp, dps = [dp] ∧ buildDatapoint dg.props row = .ok dp := by
  unfold get_datapoints at h
  obtain ⟨u, hchk, h⟩ := exceptBind_ok h
  try dsimp only at h
  split at h
  · exact absurd h (by simp)
  rw [hrows] at h
  obtain ⟨dps0, hmap, h⟩ := exceptBind_ok h
  have hbd : ∃ dp, buildDatapoint dg.props row = .ok dp ∧ dps0 = [dp] := by
    rw [List.mapM_cons] at hmap
    obtain ⟨dp, hdp, hmap⟩ := exceptBind_ok hmap
    rw [List.mapM_nil] at hmap
    refine ⟨dp, hdp, ?_⟩
    simp only [Bind.bind, Except.bind, pure, Except.pure, Except.ok.injEq] at hmap
    exact hmap.symm
  obtain ⟨dp, hdp, hdps0⟩ := hbd
  subst hdps0
  try dsimp only at h
  split at h
  · exact absurd h (by simp)
  · simp only [Except.ok.injEq] at h
    exact ⟨dp, h.symm, hdp⟩

/-! ## Characterization of the imported common properties -/

theorem setCommonScalar_temperature (c : CommonProps) (f : String) (q : Quantity) :
    (setCommonScalar c f q).temperature =
      (if f = "temperature" then some q else c.temperature) := by
  unfold setCommonScalar
  by_cases h : f = "temperature"
  · subst h; simp
  · rw [if_neg h]
    split
    · rfl
    split
    · rfl
    split
    · rfl
    rfl

theorem setCommonScalar_pressure (c : CommonProps) (f : String) (q : Quantity) :
    (setCommonScalar c f q).pressure =
      (if f = "pressure" then some q else c.pressure) := by
  unfold setCommonScalar
  by_cases h : f = "pressure"
  · subst h; simp
  · rw [if_neg h]
    split
    · rfl
    split
    · rfl
    split
    · rfl
    rfl

theorem setCommonScalar_pressureRise (c : CommonProps) (f : String) (q : Quantity) :
    (setCommonScalar c f q).pressureRise =
      (if f = "pressure-rise" then some q else c.pressureRise) := by
  unfold setCommonScalar
  by_cases h : f = "pressure-rise"
  · subst h; simp
  · rw [if_neg h]
    split
    · rfl
    split
    · rfl
    split
    · rfl
    rfl

theorem setCommonScalar_compressionTime (c : CommonProps) (f : String) (q : Quantity) :
    (setCommonScalar c f q).compressionTime =
      (if f = "compression-time" then some q else c.compressionTime) := by
  unfold setCommonScalar
  by_cases h : f = "compression-time"
  · subst h; simp
  · rw [if_neg h]
    split
    · rfl
    split
    · rfl
    split
    · rfl
    rfl

theorem applyCommonProp_ok_scalars {c0 : CommonProps} {e : RSPropElem}
    {c1 : CommonProps} (h : applyCommonProp c0 e = .ok c1) :
    c1.temperature =
      (if e.name = "temperature" then some ⟨e.value, normalizeTorr e.units⟩
       else c0.temperature) ∧
    c1.pressure =
      (if e.name = "pressure" then some ⟨e.value, normalizeTorr e.units⟩
       else c0.pressure) ∧
    c1.pressureRise =
      (if e.name = "pressure rise" then some ⟨e.value, normalizeTorr e.units⟩
       else c0.pressureRise) ∧
    c1.compressionTime =
      (if e.name = "compression time" then some ⟨e.value, normalizeTorr e.units⟩
       else c0.compressionTime) := by
  unfold applyCommonProp at h
  split at h
  · rename_i heq
    obtain ⟨comp, hcomp, h⟩ := exceptBind_ok h
    simp only [Except.ok.injEq] at h
    subst h
    rw [heq]
    simp
  · rename_i hne
    split at h
    · rename_i hdisj
      try dsimp only at h
      split at h
      · exact absurd h (by simp)
      split at h
      · exact absurd h (by simp)
      split at h
      · simp only [Except.ok.injEq] at h
        subst h
        rcases hdisj with heq | heq | heq | heq <;> rw [heq] <;>
          simp [setCommonScalar_temperature, setCommonScalar_pressure,
            setCommonScalar_pressureRise, setCommonScalar_compressionTime, dashName]
      · exact absurd h (by simp)
    · exact absurd h (by simp)

theorem applyCommonProp_fold :
    ∀ (elems : List RSPropElem) (c0 cp : CommonProps),
      List.foldlM applyCommonProp c0 elems = .ok cp →
      cp.temperature = elems.foldl
        (fun acc e =>
          if e.name = "temperature" then some ⟨e.value, normalizeTorr e.units⟩ else acc)
        c0.temperature ∧
      cp.pressure = elems.foldl
        (fun acc e =>
          if e.name = "pressure" then some ⟨e.value, normalizeTorr e.units⟩ else acc)
        c0.pressure ∧
      cp.pressureRise = elems.foldl
        (fun acc e =>
          if e.name = "pressure rise" then some ⟨e.value, normalizeTorr e.units⟩ else acc)
        c0.pressureRise ∧
      cp.compressionTime = elems.foldl
        (fun acc e =>
          if e.name = "compression time" then some ⟨e.value, normalizeTorr e.units⟩ else acc)
        c0.compressionTime := by
  intro elems
  induction elems with
  | nil =>
    intro c0 cp h
    simp only [List.foldlM_nil, pure, Except.pure, Except.ok.injEq] at h
    subst h
    exact ⟨rfl, rfl, rfl, rfl⟩
  | cons e rest ih =>
    intro c0 cp h
    rw [List.foldlM_cons] at h
    cases hae : applyCommonProp c0 e with
    | error err => rw [hae] at h; exact absurd h (by simp [Bind.bind, Except.bind])
    | ok c1 =>
      rw [hae, exceptBind_ok_eq] at h
      obtain ⟨f1, f2, f3, f4⟩ := ih c1 cp h
      obtain ⟨g1, g2, g3, g4⟩ := applyCommonProp_ok_scalars hae
      simp only [List.foldl_cons]
      exact ⟨by rw [f1, g1], by rw [f2, g2], by rw [f3, g3], by rw [f4, g4]⟩

theorem get_common_properties_fields {elems : List RSPropElem} {cp : CommonProps}
    (h : get_common_properties elems = .ok cp) :
    cp.temperature = commonPropValueFor elems "temperature" ∧
    cp.pressure = commonPropValueFor elems "pressure" ∧
    cp.pressureRise = commonPropValueFor elems "pressure rise" ∧
    cp.compressionTime = commonPropValueFor elems "compression time" := by
  unfold get_common_properties at h
  have := applyCommonProp_fold elems {} cp h
  unfold commonPropValueFor
  exact this

theorem applyCommonProp_ok_name {c0 c1 : CommonProps} {e : RSPropElem}
    (h : applyCommonProp c0 e = .ok c1) :
    e.name = "initial composition" ∨ e.name = "temperature" ∨ e.name = "pressure" ∨
      e.name = "pressure rise" ∨ e.name = "compression time" := by
  unfold applyCommonProp at h
  split at h
  · rename_i heq
    exact Or.inl heq
  · split at h
    · rename_i hdisj
      exact Or.inr hdisj
    · exact absurd h (by simp)

theorem commonFold_no_ignition_delay :
    ∀ (elems : List RSPropElem) (c0 cp : CommonProps),
      List.foldlM applyCommonProp c0 elems = .ok cp →
      commonPropValueFor elems "ignition delay" = none := by
  intro elems
  induction elems with
  | nil => intro c0 cp _; rfl
  | cons e rest ih =>
    intro c0 cp h
    rw [List.foldlM_cons] at h
    cases hae : applyCommonProp c0 e with
    | error err => rw [hae] at h; exact absurd h (by simp [Bind.bind, Except.bind])
    | ok c1 =>
      rw [hae, exceptBind_ok_eq] at h
      have hrest := ih c1 cp h
      have hname : ¬ e.name = "ignition delay" := by
        rcases applyCommonProp_ok_name hae with h1 | h1 | h1 | h1 | h1 <;>
          rw [h1] <;> decide
      unfold commonPropValueFor at hrest ⊢
      rw [List.foldl_cons, if_neg hname]
      exact hrest

theorem get_common_properties_no_ignition_delay {elems : List RSPropElem}
    {cp : CommonProps} (h : get_common_properties elems = .ok cp) :
    commonPropValueFor elems "ignition delay" = none :=
  commonFold_no_ignition_delay elems {} cp h

/-! ## Positivity of the registry scales and the validated data points -/

theorem unit_registry_pos : ∀ (u : String) (ud : UnitDef),
    unit_registry u = some ud → 0 < ud.scale := by
  intro u ud h
  unfold unit_registry at h
  by_cases c1 : u = "kelvin" ∨ u = "K"
  · rw [if_pos c1] at h; injection h with h2; subst h2; norm_num
  rw [if_neg c1] at h
  by_cases c2 : u = "pascal" ∨ u = "Pa"
  · rw [if_pos c2] at h; injection h with h2; subst h2; norm_num
  rw [if_neg c2] at h
  by_cases c3 : u = "kPa"
  · rw [if_pos c3] at h; injection h with h2; subst h2; norm_num
  rw [if_neg c3] at h
  by_cases c4 : u = "bar"
  · rw [if_pos c4] at h; injection h with h2; subst h2; norm_num
  rw [if_neg c4] at h
  by_cases c5 : u = "atm"
  · rw [if_pos c5] at h; injection h with h2; subst h2; norm_num
  rw [if_neg c5] at h
  by_cases c6 : u = "torr" ∨ u = "Torr"
  · rw [if_pos c6] at h; injection h with h2; subst h2; norm_num
  rw [if_neg c6] at h
  by_cases c7 : u = "second" ∨ u = "s"
  · rw [if_pos c7] at h; injection h with h2; subst h2; norm_num
  rw [if_neg c7] at h
  by_cases c8 : u = "ms"
  · rw [if_pos c8] at h; injection h with h2; subst h2; norm_num
  rw [if_neg c8] at h
  by_cases c9 : u = "us"
  · rw [if_pos c9] at h; injection h with h2; subst h2; norm_num
  rw [if_neg c9] at h
  by_cases c10 : u = "1.0 / second" ∨ u = "1/s"
  · rw [if_pos c10] at h; injection h with h2; subst h2; norm_num
  rw [if_neg c10] at h
  by_cases c11 : u = "meter**3" ∨ u = "cm**3"
  · rw [if_pos c11] at h
    injection h with h2
    subst h2
    by_cases c12 : u = "cm**3"
    · rw [if_pos c12]; norm_num
    · rw [if_neg c12]; norm_num
  rw [if_neg c11] at h
  exact Option.noConfusion h

theorem validateQuantityField_truthy {field : String} {q : Option Quantity}
    (h : validateQuantityField field q = .ok ()) :
    truthyQ q = q.isSome := by
  cases q with
  | none => rfl
  | some qv =>
    unfold validateQuantityField at h
    try dsimp only at h
    cases hvv : validate_isvalid_quantity false true field qv with
    | none => rw [hvv] at h; exact absurd h (by simp)
    | some l =>
      rw [hvv] at h
      cases l with
      | cons p t =>
        obtain ⟨f, msg⟩ := p
        exact absurd h (by simp)
      | nil =>
        simp only [validate_isvalid_quantity, Bool.not_false, Bool.and_self,
          if_true] at hvv
        split at hvv
        · exact absurd hvv (by simp)
        split at hvv
        · rename_i uv uf huv huf
          split at hvv
          · split at hvv
            · exact absurd hvv (by simp)
            · rename_i hle
              rw [zero_mul] at hle
              have hs := unit_registry_pos _ _ huv
              have hne : qv.mag ≠ 0 := by
                intro h0
                exact hle (le_of_eq (by rw [h0, zero_mul]))
              simp [truthyQ, hne]
          · exact absurd hvv (by simp)
        · exact absurd hvv (by simp)

theorem validateDataPoint_truthy {dp : DPDict}
    (h : validateDataPoint dp = .ok ()) :
    truthyQ dp.temperature = dp.temperature.isSome ∧
    truthyQ dp.pressure = dp.pressure.isSome ∧
    truthyQ dp.ignitionDelay = dp.ignitionDelay.isSome ∧
    truthyQ dp.pressureRise = dp.pressureRise.isSome := by
  unfold validateDataPoint at h
  obtain ⟨u1, h1, h⟩ := exceptBind_ok h
  obtain ⟨u2, h2, h⟩ := exceptBind_ok h
  obtain ⟨u3, h3, h⟩ := exceptBind_ok h
  obtain ⟨u4, h4, h⟩ := exceptBind_ok h
  cases u1; cases u2; cases u3; cases u4
  exact ⟨validateQuantityField_truthy h1, validateQuantityField_truthy h2,
    validateQuantityField_truthy h3, validateQuantityField_truthy h4⟩

/-! ## Characterization of the imported ignition definition -/

theorem get_ignition_type_ok {t ty : String} {ign : Ignition}
    (h : get_ignition_type t ty = .ok ign) :
    ign.typ = ty ∧
    normTargetName t ∈ (["P", "T", "OH", "OH*", "CH*", "CH"] : List String) ∧
    ign.target = (if normTargetName t = "P" then "pressure"
      else if normTargetName t = "T" then "temperature" else normTargetName t) ∧
    (if ign.target = "pressure" then "P"
     else if ign.target = "temperature" then "T" else ign.target) = normTargetName t := by
  unfold get_ignition_type at h
  unfold normTargetName
  try dsimp only at h ⊢
  split at h
  · exact absurd h (by simp)
  split at h
  · rename_i hm
    rw [if_neg (by decide)] at h
    split at h
    · exact absurd h (by simp)
    · simp only [Except.ok.injEq] at h
      subst h
      rw [hm]
      exact ⟨rfl, by decide, by simp, by simp⟩
  · rename_i hm
    split at h
    · rename_i hm2
      rw [if_neg (by decide)] at h
      split at h
      · exact absurd h (by simp)
      · simp only [Except.ok.injEq] at h
        subst h
        rw [hm2]
        exact ⟨rfl, by decide, by simp, by simp⟩
    · rename_i hm2
      split at h
      · exact absurd h (by simp)
      · rename_i hmem
        split at h
        · exact absurd h (by simp)
        · simp only [Except.ok.injEq] at h
          subst h
          rw [not_not] at hmem
          rw [if_neg hm, if_neg hm2]
          refine ⟨rfl, hmem, rfl, ?_⟩
          simp only [List.mem_cons, List.not_mem_nil, or_false] at hmem
          rcases hmem with hm3 | hm3 | hm3 | hm3 | hm3 | hm3 <;> rw [hm3] <;> simp

/-! ## The ChemKED load of a single-point record -/

theorem toChemKED_single {r : ImportedRecord} {ck : CKRecord} {dpB : DPDict}
    {comp : Composition} {ign : Ignition}
    (hdps : r.datapoints = [dpB])
    (hcomp : dpB.composition = some comp)
    (hign : dpB.ignitionType = some ign)
    (hvh : dpB.volumeHistory = none)
    (h : toChemKED r = .ok ck) :
    ck.experiment_type = r.experimentType ∧
    ck.apparatus_kind = r.apparatusKind ∧
    ck.datapoints = [{ temperature := dpB.temperature, pressure := dpB.pressure,
                       ignition_delay := dpB.ignitionDelay,
                       pressure_rise := dpB.pressureRise,
                       composition := comp.species, composition_type := comp.kind,
                       ignition_type := ign, volume_history := none }] := by
  unfold toChemKED at h
  obtain ⟨dps0, hmap, h⟩ := exceptBind_ok h
  rw [hdps, List.mapM_cons] at hmap
  obtain ⟨ckdp, hckdp, hmap⟩ := exceptBind_ok hmap
  rw [List.mapM_nil] at hmap
  simp only [Bind.bind, Except.bind, pure, Except.pure, Except.ok.injEq] at hmap
  subst hmap
  unfold toChemKEDPoint at hckdp
  rw [hcomp] at hckdp
  try dsimp only at hckdp
  rw [hign] at hckdp
  try dsimp only at hckdp
  rw [hvh] at hckdp
  try dsimp only at hckdp
  simp only [Except.ok.injEq] at hckdp
  simp only [Except.ok.injEq] at h
  subst h
  subst hckdp
  exact ⟨rfl, rfl, rfl⟩

/-! ## Characterization of the export of a single-point record -/

theorem export_single {ck : CKRecord} {ckdp : CKDataPoint} {out : OutDoc}
    (hdp : ck.datapoints = [ckdp])
    (hexp : ck.experiment_type = "ignition delay")
    (hvh : ckdp.volume_history = none)
    (ht1 : truthyQ ckdp.temperature = ckdp.temperature.isSome)
    (ht2 : truthyQ ckdp.pressure = ckdp.pressure.isSome)
    (ht3 : truthyQ ckdp.ignition_delay = ckdp.ignition_delay.isSome)
    (ht4 : truthyQ ckdp.pressure_rise = ckdp.pressure_rise.isSome)
    (h : convert_to_ReSpecTh ck = .ok out) :
    out.apparatusKind = ck.apparatus_kind ∧
    out.experimentTypeText = "Ignition delay measurement" ∧
    out.ignitionType = ckdp.ignition_type.typ ∧
    out.ignitionTarget = (if ckdp.ignition_type.target = "pressure" then "P"
      else if ckdp.ignition_type.target = "temperature" then "T"
      else ckdp.ignition_type.target) ∧
    outPointValue out "temperature" = ckdp.temperature ∧
    outPointValue out "pressure" = ckdp.pressure ∧
    outPointValue out "ignition delay" = ckdp.ignition_delay ∧
    outPointValue out "pressure rise" = ckdp.pressure_rise := by
  unfold convert_to_ReSpecTh at h
  rw [if_neg (not_not_intro hexp), hdp] at h
  rcases hq1 : ckdp.temperature with _ | q1 <;>
    rcases hq2 : ckdp.pressure with _ | q2 <;>
      rcases hq3 : ckdp.ignition_delay with _ | q3 <;>
        rcases hq4 : ckdp.pressure_rise with _ | q4 <;>
          simp only [hq1, hq2, hq3, hq4, truthyQ, Option.isSome_some,
            Option.isSome_none, decide_eq_true_eq, ne_eq] at ht1 ht2 ht3 ht4 <;>
          simp [buildScalarColumns, buildRows, rowValue, getattrQ, truthyQ,
            datagroup_properties, List.foldlM_cons, List.foldlM_nil, List.mapM_cons,
            List.mapM_nil, List.mapM.loop, exceptBind_ok_eq, Bind.bind, Except.bind,
            pure, Except.pure, hvh,
            hq1, hq2, hq3, hq4, ht1, ht2, ht3, ht4] at h <;>
          subst h <;>
          exact ⟨rfl, rfl, rfl, rfl, rfl, rfl, rfl, rfl⟩

/-! ## Claim C2 -/

/-- C2 (amended): for a source document with exactly one data point, no volume
history, and no property defined both at record level and in the data-point
row, `export(import(doc))` reproduces the apparatus kind, the experiment type,
the ignition definition (type, and target under the P/pressure, T/temperature
and OHEX/CHEX mappings), and the effective value of every data-group property
(the row value where present, else the record-level common value).  The
original claim with an overlapping property fails: the broadcast step of
the importer overwrites the point's own value (see the counterexample).  The
ChemKED reload between the two converters is modelled from the spec. -/
theorem c2_round_trip (resolve : String → LookupOutcome) (nm : String)
    (doc : RSDoc) (dg : RSDataGroup) (row : List (String × ℚ)) (out : OutDoc)
    (hdg : doc.dataGroups = [dg])
    (hrows : dg.rows = [row])
    (hnov : ∀ p ∈ datagroup_properties,
      commonPropValueFor doc.commonProps p = none ∨ rowValueFor dg.props row p = none)
    (h : importThenExport resolve nm doc = .ok out) :
    out.apparatusKind = doc.apparatusKind ∧
    out.experimentTypeText = doc.experimentType ∧
    out.ignitionType = doc.ignitionTypeAttr ∧
    out.ignitionTarget = normTargetName doc.ignitionTargetAttr ∧
    ∀ p ∈ datagroup_properties,
      outPointValue out p = docPointValue doc.commonProps dg.props row p := by
  unfold importThenExport at h
  obtain ⟨r, hr, h⟩ := exceptBind_ok h
  try dsimp only at h
  obtain ⟨ck, hck, h⟩ := exceptBind_ok h
  try dsimp only at h
  obtain ⟨cp, ign, dps, hcp, hignt, hdps, hexpT, _, hrexp, happ, _, _, hrdps, hvalid⟩ :=
    convert_ReSpecTh_ok_parts hr
  rw [hdg] at hdps
  obtain ⟨dpI, hdpseq, hbd⟩ := get_datapoints_single_row hrows hdps
  obtain ⟨hT, hP, hD, hR, hCT, hComp, hIgn, hVH⟩ := buildDatapoint_fields hbd
  have hrdp : r.datapoints = [broadcastCommon cp ign dpI] := by
    rw [hrdps, hdpseq]; rfl
  obtain ⟨comp, hcompB⟩ :
      ∃ comp, (broadcastCommon cp ign dpI).composition = some comp := by
    cases hc2 : (broadcastCommon cp ign dpI).composition with
    | some c => exact ⟨c, rfl⟩
    | none =>
      exfalso
      unfold toChemKED at hck
      obtain ⟨dps0, hmap, _⟩ := exceptBind_ok hck
      rw [hrdp, List.mapM_cons] at hmap
      obtain ⟨ckdp0, hck0, _⟩ := exceptBind_ok hmap
      unfold toChemKEDPoint at hck0
      rw [hc2] at hck0
      exact absurd hck0 (by simp)
  have hignB : (broadcastCommon cp ign dpI).ignitionType = some ign := rfl
  have hvhB : (broadcastCommon cp ign dpI).volumeHistory = none := hVH
  obtain ⟨hckexp, hckapp, hckdps⟩ := toChemKED_single hrdp hcompB hignB hvhB hck
  have hvB := hvalid _ (by rw [hrdp]; exact List.mem_singleton_self _)
  obtain ⟨htr1, htr2, htr3, htr4⟩ := validateDataPoint_truthy hvB
  have hexpCk : ck.experiment_type = "ignition delay" := by rw [hckexp, hrexp]
  obtain ⟨ho1, ho2, ho3, ho4, hv1, hv2, hv3, hv4⟩ :=
    export_single hckdps hexpCk rfl htr1 htr2 htr3 htr4 h
  have gi := get_ignition_type_ok hignt
  have hcpf := get_common_properties_fields hcp
  refine ⟨by rw [ho1, hckapp, happ], by rw [ho2, hexpT], ho3.trans gi.1,
    ho4.trans gi.2.2.2, ?_⟩
  intro p hp
  simp only [datagroup_properties, List.mem_cons, List.not_mem_nil, or_false] at hp
  rcases hp with rfl | rfl | rfl | rfl
  · refine hv1.trans ?_
    show (if cp.temperature.isSome then cp.temperature else dpI.temperature) = _
    rw [hcpf.1, hT]
    unfold docPointValue
    rcases hnov "temperature" (by simp [datagroup_properties]) with hn | hn
    · rw [hn]
      cases rowValueFor dg.props row "temperature" <;> rfl
    · rw [hn]
      cases commonPropValueFor doc.commonProps "temperature" <;> rfl
  · refine hv2.trans ?_
    show (if cp.pressure.isSome then cp.pressure else dpI.pressure) = _
    rw [hcpf.2.1, hP]
    unfold docPointValue
    rcases hnov "pressure" (by simp [datagroup_properties]) with hn | hn
    · rw [hn]
      cases rowValueFor dg.props row "pressure" <;> rfl
    · rw [hn]
      cases commonPropValueFor doc.commonProps "pressure" <;> rfl
  · refine hv3.trans ?_
    show dpI.ignitionDelay = _
    rw [hD]
    have hnone := get_common_properties_no_ignition_delay hcp
    unfold docPointValue
    rw [hnone]
    cases rowValueFor dg.props row "ignition delay" <;> rfl
  · refine hv4.trans ?_
    show (if cp.pressureRise.isSome then cp.pressureRise else dpI.pressureRise) = _
    rw [hcpf.2.2.1, hR]
    unfold docPointValue
    rcases hnov "pressure rise" (by simp [datagroup_properties]) with hn | hn
    · rw [hn]
      cases rowValueFor dg.props row "pressure rise" <;> rfl
    · rw [hn]
      cases commonPropValueFor doc.commonProps "pressure rise" <;> rfl

/-- C2 counterexample to the unamended claim: a source document with a single
data point and no volume history whose data point defines its own temperature
(1000 K) while the common properties also define one (300 K).  The round trip
succeeds but exports the temperature 300 K — not the data point's own value —
so `export(import(doc))` does not reproduce the data-point property values
without the no-overlap hypothesis. -/
theorem c2_overlap_counterexample :
    (importThenExport offlineResolve "overlap.xml" overlapDoc).map
        (fun out => outPointValue out "temperature") = .ok (some ⟨300, "K"⟩) ∧
    docPointValue overlapDoc.commonProps
        ((overlapDoc.dataGroups.headD {}).props)
        ((overlapDoc.dataGroups.headD {}).rows.headD []) "temperature" =
      some ⟨1000, "K"⟩ ∧
    overlapDoc.dataGroups.map (fun dg => dg.rows.length) = [1] :=
  ⟨by with_unfolding_all decide, by with_unfolding_all decide,
   by with_unfolding_all decide⟩

/-- C2 witness: the amended round-trip theorem applied to a concrete document
with one data point, no volume history, and no overlap between its common
properties and its dataGroup columns. -/
theorem c2_round_trip_witness :
    (importThenExport offlineResolve "clean.xml" cleanDoc).map
        (fun out => out.apparatusKind) = .ok cleanDoc.apparatusKind := by
  cases hc : importThenExport offlineResolve "clean.xml" cleanDoc with
  | error e =>
    have hov : (importThenExport offlineResolve "clean.xml" cleanDoc).isOk = true := by
      with_unfolding_all decide
    rw [hc] at hov
    exact absurd hov (by simp [Except.isOk, Except.toBool])
  | ok out =>
    have h1 := (c2_round_trip offlineResolve "clean.xml" cleanDoc _ _ out rfl rfl
      (by decide) hc).1
    simp only [Except.map, h1]

/-! ## Claim C3 -/

/-- C3 counterexample: a record with two data points of which exactly one
carries a volume history is rejected by the exporter with the volume-history
error — the check fires on any record with more than one data point and at
least one history, not only when more than one point carries one. -/
theorem c3_single_volume_history_rejected :
    convert_to_ReSpecTh oneHistoryRecord =
      .error (.notImplemented vhNotSupportedMsg) ∧
    oneHistoryRecord.datapoints.map (fun dp => dp.volume_history.isSome) =
      [true, false] :=
  ⟨by with_unfolding_all decide, by with_unfolding_all decide⟩

/-- C3 (amended): for a record of the ignition-delay experiment type whose
data points share one composition and carry each tracked property uniformly
(each property defined on every point or on none), the exporter fails with the
volume-history UnsupportedFeature error exactly when the record has more than
one data point and at least one of them carries a volume history. -/
theorem c3_volume_history_error_iff (c : CKRecord) (dp0 : CKDataPoint)
    (hexp : c.experiment_type = "ignition delay")
    (hdp0 : c.datapoints.head? = some dp0)
    (hcomp : ∀ dp ∈ c.datapoints, dp.composition = dp0.composition)
    (huni : ∀ p ∈ datagroup_properties,
      (∀ dp ∈ c.datapoints, (getattrQ dp p).isSome = true) ∨
      (∀ dp ∈ c.datapoints, getattrQ dp p = none)) :
    (convert_to_ReSpecTh c = .error (.notImplemented vhNotSupportedMsg)) ↔
      (c.datapoints.length > 1 ∧
        c.datapoints.any (fun dp => dp.volume_history.isSome) = true) := by
  have hdp0mem : dp0 ∈ c.datapoints := by
    cases hl : c.datapoints with
    | nil => rw [hl] at hdp0; simp at hdp0
    | cons a as =>
      rw [hl] at hdp0
      simp only [List.head?_cons, Option.some.injEq] at hdp0
      rw [hdp0]
      simp
  have hcc : (c.datapoints.all fun dp => decide (dp.composition = dp0.composition)) = true := by
    rw [List.all_eq_true]
    intro dp hdp
    exact decide_eq_true (hcomp dp hdp)
  unfold convert_to_ReSpecTh
  rw [if_neg (not_not_intro hexp), hdp0]
  dsimp only
  rw [hcc, if_pos rfl]
  by_cases hlen : c.datapoints.length > 1
  · rw [if_pos hlen]
    obtain ⟨ci, hci, hinv⟩ := buildScalarColumns_ok c.datapoints dp0
      ("composition" :: (detectCommonScalars c.datapoints dp0).1) hdp0mem huni
    rw [show ("composition" :: (detectCommonScalars c.datapoints dp0).1 : List String) =
      ["composition"] ++ (detectCommonScalars c.datapoints dp0).1 from rfl] at hci
    rw [hci, exceptBind_ok_eq]
    try dsimp only
    rw [if_neg (not_not_intro (by simp))]
    obtain ⟨rows, hrows⟩ := buildRows_ok c.datapoints ci.2 hinv
    rw [hrows, exceptBind_ok_eq]
    try dsimp only
    by_cases hany : c.datapoints.any (fun dp => dp.volume_history.isSome) = true
    · rw [if_pos ⟨hlen, hany⟩]
      simp [hlen, hany, Bind.bind, Except.bind]
    · rw [if_neg (fun hc => hany hc.2)]
      cases hvh : dp0.volume_history with
      | some vh => simp [hany, Bind.bind, Except.bind]
      | none => simp [hany, Bind.bind, Except.bind]
  · rw [if_neg hlen]
    obtain ⟨ci, hci, hinv⟩ := buildScalarColumns_ok c.datapoints dp0
      ["composition"] hdp0mem huni
    rw [hci, exceptBind_ok_eq]
    try dsimp only
    rw [if_neg (not_not_intro (by simp))]
    obtain ⟨rows, hrows⟩ := buildRows_ok c.datapoints ci.2 hinv
    rw [hrows, exceptBind_ok_eq]
    try dsimp only
    rw [if_neg (fun hc => hlen hc.1)]
    cases hvh : dp0.volume_history with
    | some vh => simp [hlen, Bind.bind, Except.bind]
    | none => simp [hlen, Bind.bind, Except.bind]

/-- C3 witness: the amended volume-history characterization applied to the
two-point record with a single volume history. -/
theorem c3_volume_history_error_iff_witness :
    (convert_to_ReSpecTh oneHistoryRecord =
        .error (.notImplemented vhNotSupportedMsg)) ↔
      (oneHistoryRecord.datapoints.length > 1 ∧
        oneHistoryRecord.datapoints.any (fun dp => dp.volume_history.isSome) = true) :=
  c3_volume_history_error_iff oneHistoryRecord
    { temperature := some ⟨1000, "K"⟩, ignition_delay := some ⟨1, "s"⟩,
      composition := [⟨"H2", none, 2⟩], composition_type := "mole fraction",
      ignition_type := ⟨"pressure", "max"⟩,
      volume_history := some ⟨"s", "cm**3", [(0, 5), (1, 4)]⟩ }
    (by decide) (by decide) (by decide) (by decide)

/-! ## Claim C10 -/

/-- C10: whenever the exporter produces a document, every dataGroup element of
that document carries the id dg1 — in particular, when a volume-history second
dataGroup is emitted it shares the id dg1 with the primary dataGroup instead
of carrying a distinct id. -/
theorem c10_second_datagroup_id (c : CKRecord)
    (hok : (convert_to_ReSpecTh c).isOk = true) :
    ∀ ids, (convert_to_ReSpecTh c).map (fun out => out.dataGroups.map (·.id)) = .ok ids →
      ∀ x ∈ ids, x = "dg1" := by
  cases hc : convert_to_ReSpecTh c with
  | error e =>
    rw [hc] at hok
    exact absurd hok (by simp [Except.isOk, Except.toBool])
  | ok out =>
    have hall : ∀ dg ∈ out.dataGroups, dg.id = "dg1" := by
      unfold convert_to_ReSpecTh at hc
      split at hc
      · exact absurd hc (by simp)
      try dsimp only at hc
      split at hc
      · exact absurd hc (by simp)
      try dsimp only at hc
      obtain ⟨colsIdx0, h3, hc⟩ := exceptBind_ok hc
      try dsimp only at hc
      obtain ⟨rows, h4, hc⟩ := exceptBind_ok hc
      try dsimp only at hc
      obtain ⟨dgs, h5, hc⟩ := exceptBind_ok hc
      try dsimp only at hc
      simp only [Except.ok.injEq] at hc
      subst hc
      split at h5
      · exact absurd h5 (by simp)
      · split at h5
        · simp only [Except.ok.injEq] at h5
          subst h5
          intro dg hdg
          simp only [List.mem_cons, List.not_mem_nil, or_false] at hdg
          rcases hdg with rfl | rfl
          · rfl
          · rfl
        · simp only [Except.ok.injEq] at h5
          subst h5
          intro dg hdg
          simp only [List.mem_cons, List.not_mem_nil, or_false] at hdg
          subst hdg
          rfl
    intro ids hids x hx
    simp only [Except.map, Except.ok.injEq] at hids
    subst hids
    rw [List.mem_map] at hx
    obtain ⟨dg, hdg, hx⟩ := hx
    rw [← hx]
    exact hall dg hdg

/-- C10 witness: the dataGroup-id statement applied to a record whose single
data point carries a volume history, so that both dataGroups are emitted with
the id "dg1". -/
theorem c10_second_datagroup_id_witness :
    (convert_to_ReSpecTh singleHistoryRecord).map
        (fun out => out.dataGroups.map (·.id)) = .ok ["dg1", "dg1"] ∧
    (["dg1", "dg1"] : List String).getD 1 "" = "dg1" :=
  ⟨by with_unfolding_all decide,
   c10_second_datagroup_id singleHistoryRecord (by with_unfolding_all decide)
     ["dg1", "dg1"] (by with_unfolding_all decide) _ (by decide)⟩

/-! ## Claim C9 -/

theorem modifyAt_get? {α : Type} (f : α → α) :
    ∀ (l : List α) (i : Nat), (modifyAt f l i).get? i = (l.get? i).map f := by
  intro l
  induction l with
  | nil => intro i; cases i <;> simp [modifyAt]
  | cons a as ih =>
    intro i
    cases i with
    | zero => simp [modifyAt]
    | succ n => simpa [modifyAt] using ih n

/-- C9: a validator instance copies the module-level skip flag once at
construction; the module-level disable and enable functions change the module
state only, leaving every constructed instance untouched, while the instance
methods change exactly the addressed instance and leave the module state
alone. -/
theorem c9_instance_captures_flag (w : PyWorld) (i : Nat) (s : ModuleState)
    (hi : i < w.validators.length) :
    (OurValidator.init s).skip_validation = s.mod_skip_validation ∧
    (moduleDisableValidation w).validators = w.validators ∧
    (moduleEnableValidation w).validators = w.validators ∧
    (newValidator w).validators = w.validators ++ [⟨w.module.mod_skip_validation⟩] ∧
    (instanceDisableValidation w i).validators.get? i = some ⟨true⟩ ∧
    (instanceEnableValidation w i).validators.get? i = some ⟨false⟩ ∧
    (instanceDisableValidation w i).module = w.module ∧
    (instanceEnableValidation w i).module = w.module := by
  refine ⟨rfl, rfl, rfl, rfl, ?_, ?_, rfl, rfl⟩
  · show (modifyAt _ w.validators i).get? i = _
    rw [modifyAt_get?, List.get?_eq_get hi]
    rfl
  · show (modifyAt _ w.validators i).get? i = _
    rw [modifyAt_get?, List.get?_eq_get hi]
    rfl

/-- C9 witness: the capture statement applied to a world holding one validator
constructed while the flag was set. -/
theorem c9_instance_captures_flag_witness :
    (OurValidator.init ⟨true, []⟩).skip_validation = true ∧
    (moduleDisableValidation ⟨⟨true, []⟩, [⟨true⟩]⟩).validators = [⟨true⟩] ∧
    (moduleEnableValidation ⟨⟨true, []⟩, [⟨true⟩]⟩).validators = [⟨true⟩] ∧
    (newValidator ⟨⟨true, []⟩, [⟨true⟩]⟩).validators = [⟨true⟩] ++ [⟨true⟩] ∧
    (instanceDisableValidation ⟨⟨true, []⟩, [⟨true⟩]⟩ 0).validators.get? 0 =
      some ⟨true⟩ ∧
    (instanceEnableValidation ⟨⟨true, []⟩, [⟨true⟩]⟩ 0).validators.get? 0 =
      some ⟨false⟩ ∧
    (instanceDisableValidation ⟨⟨true, []⟩, [⟨true⟩]⟩ 0).module = ⟨true, []⟩ ∧
    (instanceEnableValidation ⟨⟨true, []⟩, [⟨true⟩]⟩ 0).module = ⟨true, []⟩ :=
  c9_instance_captures_flag ⟨⟨true, []⟩, [⟨true⟩]⟩ 0 ⟨true, []⟩ (by decide)

end PyKED
